import Mathlib

/-!
Shallow embedding of FelixBenning/DeepOBS:
  * src/deepobs/cifar100/cifar100_wrn.py  (the wide-residual-network builder `set_up`)
  * src/setup.py                          (package metadata, `install_requires_list`)

Graph construction is modelled as explicit state passing over a builder state
holding the tf.variable_scope stack, the declared variables, and the graph
collections "regularizable_variables", tf.GraphKeys.REGULARIZATION_LOSSES and
tf.GraphKeys.UPDATE_OPS.  Tensors are symbolic expression trees paired with a
static NHWC shape.  Scalars that are Python floats in the source are ℚ here.
-/

namespace DeepOBS

/-- Kind of a TensorFlow variable initializer as used in cifar100_wrn.py.
`randomNormal v` stands for tf.random_normal_initializer with standard deviation
sqrt v; the source computes the radicand as 1.0/filter_size/filter_size/out_channels
(conv) respectively 1.0/out_dim (fc), which is what is stored here. -/
inductive InitKind where
  | zeros
  | ones
  | randomNormal (variance : ℚ)
  | constant (c : ℚ)
deriving DecidableEq, Repr

/-- A variable name: its tf.variable_scope path, outermost scope first, with the
variable's own name as the last component (TensorFlow joins these with a slash). -/
abbrev VName := List String

/-- A variable created by tf.get_variable. -/
structure VarDecl where
  name : VName
  shape : List Nat
  init : InitKind
  trainable : Bool
deriving DecidableEq, Repr

/-- Symbolic TensorFlow tensor expressions: one constructor per tensor operation
used in cifar100_wrn.py.  `X` and `yLabels` are the image/label batch tensors
delivered by data_loading.load(); `condEqPhase s t f` is
tf.cond(tf.equal(phase, s), lambda: t, lambda: f) where phase is the string-valued
phase variable also delivered by data_loading.load().  `reduceMean x []` is
tf.reduce_mean over all axes (the source calls it without an axis argument for the
accuracy).  `momentsMean`/`momentsVar` are the two components of tf.nn.moments. -/
inductive TFExpr where
  | X
  | yLabels
  | var (name : VName)
  | conv2d (x w : TFExpr) (stride : Nat) (padding : String)
  | relu (x : TFExpr)
  | identityE (x : TFExpr)
  | maxPool (x : TFExpr) (ksize stride : Nat) (padding : String)
  | add (a b : TFExpr)
  | smul (c : ℚ) (x : TFExpr)
  | momentsMean (x : TFExpr) (axes : List Nat)
  | momentsVar (x : TFExpr) (axes : List Nat)
  | condEqPhase (s : String) (t f : TFExpr)
  | batchNormalization (x mean variance beta gamma : TFExpr) (eps : ℚ)
  | reduceMean (x : TFExpr) (axes : List Nat)
  | reshape (x : TFExpr) (lastDim : Nat)
  | matmul (a b : TFExpr)
  | softmaxCEv2 (labels logits : TFExpr)
  | l2loss (x : TFExpr)
  | argmax (x : TFExpr) (axis : Nat)
  | equalE (a b : TFExpr)
  | castFloat (x : TFExpr)
deriving DecidableEq, Repr

/-- An assignment operation `target.assign(value)`; batch_norm places two of these
into the tf.GraphKeys.UPDATE_OPS collection. -/
structure UpdateOp where
  target : VName
  value : TFExpr
deriving DecidableEq, Repr

/-- Initialization operations: the three iterator/phase initializers supplied by
the data_loading collaborator, and tf.group applied to a list of operations. -/
inductive InitOpE where
  | dataTrainInit
  | dataTrainEvalInit
  | dataTestInit
  | group (ops : List InitOpE)

/-- A tensor during graph construction: its symbolic expression together with its
static shape (NHWC while 4-dimensional). -/
structure TVal where
  e : TFExpr
  shape : List Nat
deriving DecidableEq, Repr

/-- Graph-construction state: variable-scope stack (innermost scope first), the
declared variables, and the three graph collections the source writes to. -/
structure BState where
  scopes : List String
  vars : List VarDecl
  regularizable : List VName
  regLosses : List TFExpr
  updateOps : List UpdateOp
deriving DecidableEq, Repr

/-- The empty graph, before set_up runs. -/
def initialState : BState := ⟨[], [], [], [], []⟩

def pushScope (nm : String) (s : BState) : BState := { s with scopes := nm :: s.scopes }

def popScope (s : BState) : BState := { s with scopes := s.scopes.tail }

/-- Full name of variable `nm` under the scope stack of `s`. -/
def fullName (s : BState) (nm : String) : VName := s.scopes.reverse ++ [nm]

def declared (s : BState) (n : VName) : Bool := s.vars.any (fun v => v.name == n)

/-- tf.get_variable: create the variable under the current scope, or retrieve the
existing variable of that full name (in the source every call site sits in a fresh
scope, so the retrieve branch is never taken during set_up). -/
def getVariable (nm : String) (shape : List Nat) (ini : InitKind) (trainable : Bool)
    (s : BState) : TFExpr × BState :=
  let full := fullName s nm
  (.var full,
   if declared s full then s
   else { s with vars := s.vars ++ [⟨full, shape, ini, trainable⟩] })

/-- Ceiling division, used for the spatial output size of a SAME-padded strided
convolution. -/
def cdiv (a b : Nat) : Nat := (a + b - 1) / b

/-- Output shape of tf.nn.conv2d on an NHWC tensor (all convolutions in the source
use SAME padding). -/
def convShape (shape : List Nat) (stride outC : Nat) : List Nat :=
  [shape.getD 0 0, cdiv (shape.getD 1 0) stride, cdiv (shape.getD 2 0) stride, outC]

/-- Output shape of tf.nn.max_pool with VALID padding and equal window/stride. -/
def maxPoolShape (shape : List Nat) (st : Nat) : List Nat :=
  [shape.getD 0 0, (shape.getD 1 0 - st) / st + 1, (shape.getD 2 0 - st) / st + 1,
   shape.getD 3 0]

/-- Shape of the tf.nn.moments statistics over axes [0, 1, 2] of an NHWC tensor:
one entry per channel. -/
def momentsShape (shape : List Nat) : List Nat := [shape.getD 3 0]

/-- Shape of tf.reduce_mean over the two spatial axes [1, 2] of an NHWC tensor. -/
def meanPoolShape (shape : List Nat) : List Nat := [shape.getD 0 0, shape.getD 3 0]

/-- Shape of tf.reshape(x, [-1, d]). -/
def reshapeShape (shape : List Nat) (d : Nat) : List Nat := [shape.prod / d, d]

/-- The guarded collection update shared by conv and fc (cifar100_wrn.py lines
259-260 and 282-283): add the name to the "regularizable_variables" collection
unless it is already a member. -/
def addToRegularizable (n : VName) (s : BState) : BState :=
  if n ∈ s.regularizable then s
  else { s with regularizable := s.regularizable ++ [n] }

/-- set_up.conv (cifar100_wrn.py lines 234-261): a convolution layer.  Creates the
kernel W under a new scope, adds W to the "regularizable_variables" collection
unless it is already there, and returns the convolution output.  No bias, no
non-linearity. -/
def conv (x : TVal) (filter_size out_channels stride : Nat)
    (padding : String := "SAME") (nm : String := "conv") (s : BState) : TVal × BState :=
  let inC := x.shape.getD 3 0
  let s1 := pushScope nm s
  let ini : InitKind := .randomNormal (1 / ((filter_size * filter_size * out_channels : Nat) : ℚ))
  let ws2 := getVariable "W" [filter_size, filter_size, inC, out_channels] ini true s1
  let wname := fullName s1 "W"
  let s3 := addToRegularizable wname ws2.2
  (⟨.conv2d x.e ws2.1 stride padding, convShape x.shape stride out_channels⟩, popScope s3)

/-- set_up.batch_norm (cifar100_wrn.py lines 184-232).  Computes the batch moments
over axes [0, 1, 2], creates the non-trainable moving averages mean_avg (zeros) and
std_avg (ones) and the trainable beta (zeros) and gamma (ones), registers the two
moving-average update operations in UPDATE_OPS, selects the batch statistics when
phase == "train" and the moving averages otherwise, and returns
tf.nn.batch_normalization(x, mean, variance, beta, gamma, 1e-5).  The source's
single tf.cond returning the pair (mean, variance) is rendered as one cond node
per component with the same predicate. -/
def batch_norm (x : TVal) (decay : ℚ) (nm : String := "batch_norm") (s : BState) :
    TVal × BState :=
  let s1 := pushScope nm s
  let mShape := momentsShape x.shape
  let mean_batch := TFExpr.momentsMean x.e [0, 1, 2]
  let variance_batch := TFExpr.momentsVar x.e [0, 1, 2]
  let ms2 := getVariable "mean_avg" mShape .zeros false s1
  let vs3 := getVariable "std_avg" mShape .ones false ms2.2
  let bs4 := getVariable "beta" mShape .zeros true vs3.2
  let gs5 := getVariable "gamma" mShape .ones true bs4.2
  let update_mean : UpdateOp :=
    ⟨fullName s1 "mean_avg", .add (.smul decay ms2.1) (.smul (1 - decay) mean_batch)⟩
  let update_variance : UpdateOp :=
    ⟨fullName s1 "std_avg", .add (.smul decay vs3.1) (.smul (1 - decay) variance_batch)⟩
  let s6 := { gs5.2 with updateOps := gs5.2.updateOps ++ [update_mean, update_variance] }
  let mean := TFExpr.condEqPhase "train" mean_batch ms2.1
  let variance := TFExpr.condEqPhase "train" variance_batch vs3.1
  (⟨.batchNormalization x.e mean variance bs4.1 gs5.1 (1 / 100000), x.shape⟩, popScope s6)

/-- set_up.fc (cifar100_wrn.py lines 263-287): a fully-connected layer.  Creates
the weight matrix W (added to "regularizable_variables" unless present) and the
bias b (never added to any collection), and returns tf.matmul(x, W) + b. -/
def fc (x : TVal) (out_dim : Nat) (nm : String := "fc") (s : BState) : TVal × BState :=
  let s1 := pushScope nm s
  let ws2 := getVariable "W" [x.shape.getD 1 0, out_dim]
    (.randomNormal (1 / ((out_dim : Nat) : ℚ))) true s1
  let wname := fullName s1 "W"
  let s3 := addToRegularizable wname ws2.2
  let bs4 := getVariable "b" [out_dim] (.constant 0) true s3
  (⟨.add (.matmul x.e ws2.1) bs4.1, [x.shape.getD 0 0, out_dim]⟩, popScope bs4.2)

/-- Python 2 xrange(a, b, 1): the list [a, a+1, ..., b-1]. -/
def xrange (a b : Nat) : List Nat := List.range' a (b - a)

/-- Number of filter channels for the blocks (cifar100_wrn.py line 89). -/
def filters (k : Nat) : List Nat := [16, 16 * k, 32 * k, 64 * k]

/-- First-unit strides for the blocks (cifar100_wrn.py line 90). -/
def strides : List Nat := [1, 2, 2]

/-- The shortcut branch of a first residual unit (cifar100_wrn.py lines 111-120):
identity when the filter counts agree and the stride is 1, max-pool when the
filter counts agree and the stride is not 1, and a 1x1 convolution otherwise. -/
def shortcutOf (fPrev fCur st : Nat) (x : TVal) (s : BState) : TVal × BState :=
  if fPrev == fCur then
    if st == 1 then (⟨.identityE x.e, x.shape⟩, s)
    else (⟨.maxPool x.e st st "VALID", maxPoolShape x.shape st⟩, s)
  else conv x 1 fCur st "SAME" "shortcut" s

/-- The first residual unit of block i (cifar100_wrn.py lines 105-132), inside
variable scope unit_i_0. -/
def firstUnit (bnd : ℚ) (k i : Nat) (xs : TVal × BState) : TVal × BState :=
  let s0 := pushScope ("unit_" ++ toString i ++ "_0") xs.2
  let x1s := batch_norm xs.1 bnd "bn_1" s0
  let x2 : TVal := ⟨.relu x1s.1.e, x1s.1.shape⟩
  let fPrev := (filters k).getD (i - 1) 0
  let fCur := (filters k).getD i 0
  let st := strides.getD (i - 1) 0
  let scs := shortcutOf fPrev fCur st x2 x1s.2
  let x3s := conv x2 3 fCur st "SAME" "conv_1" scs.2
  let x4s := batch_norm x3s.1 bnd "bn_2" x3s.2
  let x5 : TVal := ⟨.relu x4s.1.e, x4s.1.shape⟩
  let x6s := conv x5 3 fCur 1 "SAME" "conv_2" x4s.2
  (⟨.add x6s.1.e scs.1.e, x6s.1.shape⟩, popScope x6s.2)

/-- A further residual unit j of block i (cifar100_wrn.py lines 134-153), inside
variable scope unit_i_j; the shortcut is the unit input itself. -/
def furtherUnit (bnd : ℚ) (k i j : Nat) (xs : TVal × BState) : TVal × BState :=
  let s0 := pushScope ("unit_" ++ toString i ++ "_" ++ toString j) xs.2
  let x1s := batch_norm xs.1 bnd "bn_1" s0
  let x2 : TVal := ⟨.relu x1s.1.e, x1s.1.shape⟩
  let x3s := conv x2 3 ((filters k).getD i 0) 1 "SAME" "conv_1" x1s.2
  let x4s := batch_norm x3s.1 bnd "bn_2" x3s.2
  let x5 : TVal := ⟨.relu x4s.1.e, x4s.1.shape⟩
  let x6s := conv x5 3 ((filters k).getD i 0) 1 "SAME" "conv_2" x4s.2
  (⟨.add x6s.1.e xs.1.e, x6s.1.shape⟩, popScope x6s.2)

/-- Residual block i: the first residual unit followed by one further unit per
element of xrange(1, num_residual_units) (cifar100_wrn.py lines 105-153). -/
def runBlock (bnd : ℚ) (k n i : Nat) (xs : TVal × BState) : TVal × BState :=
  (xrange 1 n).foldl (fun acc j => furtherUnit bnd k i j acc) (firstUnit bnd k i xs)

/-- Modelled from the spec: the data_loading collaborator
(cifar100_input.data_loading) is not under src/.  The spec describes it as "a
single external data source collaborator supplying batches and a phase indicator";
for CIFAR-100 the image batch has shape [batch_size, 32, 32, 3] and the one-hot
label batch has shape [batch_size, 100]. -/
structure DataLoading where
  batch_size : Nat
deriving DecidableEq, Repr

/-- Modelled from the spec: data_loading.load() returns the image batch, the label
batch and the phase indicator; the phase indicator is carried implicitly by the
condEqPhase nodes. -/
def DataLoading.load (d : DataLoading) : TVal × TVal :=
  (⟨.X, [d.batch_size, 32, 32, 3]⟩, ⟨.yLabels, [d.batch_size, 100]⟩)

/-- Modelled from the spec: the per-phase initialization operations supplied by
the data_loading collaborator. -/
def DataLoading.train_init_op (_ : DataLoading) : InitOpE := .dataTrainInit

/-- Modelled from the spec: see DataLoading.train_init_op. -/
def DataLoading.train_eval_init_op (_ : DataLoading) : InitOpE := .dataTrainEvalInit

/-- Modelled from the spec: see DataLoading.train_init_op. -/
def DataLoading.test_init_op (_ : DataLoading) : InitOpE := .dataTestInit

/-- The tail of set_up.set_up after the three residual blocks (cifar100_wrn.py
lines 155-182): the last unit (batch norm, relu, mean pool over the spatial axes
inside scope unit_last), the reshape and fully-connected layer with 100 outputs,
the per-example softmax cross-entropy losses against the labels y, the weight-decay
loop over the "regularizable_variables" collection, and the mean accuracy. -/
def setUpTail (y : TVal) (weight_decay bnd : ℚ) (xbs : TVal × BState) :
    (TVal × TVal) × BState :=
  let sl0 := pushScope "unit_last" xbs.2
  let xl1s := batch_norm xbs.1 bnd "batch_norm" sl0
  let xl2 : TVal := ⟨.relu xl1s.1.e, xl1s.1.shape⟩
  let xl3 : TVal := ⟨.reduceMean xl2.e [1, 2], meanPoolShape xl2.shape⟩
  let sl2 := popScope xl1s.2
  let sf0 := pushScope "fully-connected" sl2
  let d1 := xl3.shape.getD 1 0
  let xr : TVal := ⟨.reshape xl3.e d1, reshapeShape xl3.shape d1⟩
  let los := fc xr 100 "fc" sf0
  let sf2 := popScope los.2
  let losses : TVal := ⟨.softmaxCEv2 y.e los.1.e, los.1.shape.dropLast⟩
  let sr := { sf2 with regLosses := sf2.regLosses ++
      sf2.regularizable.map (fun w => .smul weight_decay (.l2loss (.var w))) }
  let accuracy : TVal :=
    ⟨.reduceMean (.castFloat (.equalE (.argmax los.1.e 1) (.argmax y.e 1))) [], []⟩
  ((losses, accuracy), sr)

/-- set_up.set_up (cifar100_wrn.py lines 75-182): initial convolution, the three
residual blocks (for i in xrange(1, 4, 1)), then setUpTail. -/
def setUpGraph (d : DataLoading) (num_residual_units k : Nat) (weight_decay bnd : ℚ)
    (s : BState) : (TVal × TVal) × BState :=
  let Xy := d.load
  let x0s := conv Xy.1 3 16 1 "SAME" "conv_0" s
  let xbs := (xrange 1 4).foldl (fun acc i => runBlock bnd k num_residual_units i acc) x0s
  setUpTail Xy.2 weight_decay bnd xbs

/-- The constructed set_up instance: the attributes listed in the class docstring. -/
structure SetUp where
  data_loading : DataLoading
  losses : TVal
  accuracy : TVal
  finalState : BState
  train_init_op : InitOpE
  train_eval_init_op : InitOpE
  test_init_op : InitOpE

/-- set_up.__init__ (cifar100_wrn.py lines 45-64): build the data loading, run
set_up on the empty graph, and wrap each data_loading initializer in tf.group. -/
def set_up_init (batch_size num_residual_units k : Nat) (weight_decay bnd : ℚ) : SetUp :=
  let d : DataLoading := ⟨batch_size⟩
  let r := setUpGraph d num_residual_units k weight_decay bnd initialState
  { data_loading := d
    losses := r.1.1
    accuracy := r.1.2
    finalState := r.2
    train_init_op := .group [d.train_init_op]
    train_eval_init_op := .group [d.train_eval_init_op]
    test_init_op := .group [d.test_init_op] }

/-- src/setup.py lines 6-15: the declared runtime dependencies of the package. -/
def install_requires_list : List String :=
  ["tensorflow~=2.5", "argparse", "bayesian-optimization", "matplotlib", "numpy",
   "pandas", "seaborn", "tikzplotlib"]

/-- Python runtime semantics: the builtin name xrange exists in Python 2 only;
under Python 3 referencing it raises NameError. -/
def xrangeExec (pythonMajor : Nat) (a b : Nat) : Except String (List Nat) :=
  if pythonMajor == 2 then .ok (xrange a b)
  else .error "NameError: name xrange is not defined"

/-- TensorFlow runtime semantics: tf.variable_scope (and the rest of the TF1
variable API the module uses) exists in TensorFlow 1.x and was removed from the
top-level namespace in TensorFlow 2.x. -/
def variableScopeAvailable (tfMajor : Nat) : Bool := tfMajor == 1

/-- The TensorFlow major version pinned by install_requires_list: the requirement
string tensorflow~=2.5 pins major version 2. -/
def requiredTensorflowMajor : Nat :=
  if "tensorflow~=2.5" ∈ install_requires_list then 2 else 1

/-- The Python major version forced by install_requires_list: every release
matching tensorflow~=2.5 supports only Python 3. -/
def requiredPythonMajor : Nat :=
  if "tensorflow~=2.5" ∈ install_requires_list then 3 else 2

/-- Execution of set_up.set_up under a given Python and TensorFlow major version,
performing the runtime name resolutions of the source in source order: line 99
calls self.conv, which enters tf.variable_scope (absent in TF 2.x); line 103
evaluates xrange(1, 4, 1) and line 135 evaluates xrange(1, num_residual_units, 1)
(NameError under Python 3).  When all names resolve, the construction is the pure
graph construction setUpGraph. -/
def setUpExec (pythonMajor tfMajor : Nat) (d : DataLoading) (num_residual_units k : Nat)
    (weight_decay bnd : ℚ) (s : BState) : Except String ((TVal × TVal) × BState) := do
  if variableScopeAvailable tfMajor then pure ()
  else throw "AttributeError: module tensorflow has no attribute variable_scope"
  let _ ← xrangeExec pythonMajor 1 4
  let _ ← xrangeExec pythonMajor 1 num_residual_units
  pure (setUpGraph d num_residual_units k weight_decay bnd s)

/-- Specialize a symbolic graph to a concrete value p of the phase indicator:
every node tf.cond(tf.equal(phase, s), t, f) evaluates its predicate (p = s) and
is replaced by the branch the predicate selects. -/
def condResolve (p : String) : TFExpr → TFExpr
  | .X => .X
  | .yLabels => .yLabels
  | .var n => .var n
  | .conv2d x w st pad => .conv2d (condResolve p x) (condResolve p w) st pad
  | .relu x => .relu (condResolve p x)
  | .identityE x => .identityE (condResolve p x)
  | .maxPool x ks st pad => .maxPool (condResolve p x) ks st pad
  | .add a b => .add (condResolve p a) (condResolve p b)
  | .smul c x => .smul c (condResolve p x)
  | .momentsMean x ax => .momentsMean (condResolve p x) ax
  | .momentsVar x ax => .momentsVar (condResolve p x) ax
  | .condEqPhase s t f => if p = s then condResolve p t else condResolve p f
  | .batchNormalization x m v b g eps =>
      .batchNormalization (condResolve p x) (condResolve p m) (condResolve p v)
        (condResolve p b) (condResolve p g) eps
  | .reduceMean x ax => .reduceMean (condResolve p x) ax
  | .reshape x d => .reshape (condResolve p x) d
  | .matmul a b => .matmul (condResolve p a) (condResolve p b)
  | .softmaxCEv2 l lo => .softmaxCEv2 (condResolve p l) (condResolve p lo)
  | .l2loss x => .l2loss (condResolve p x)
  | .argmax x ax => .argmax (condResolve p x) ax
  | .equalE a b => .equalE (condResolve p a) (condResolve p b)
  | .castFloat x => .castFloat (condResolve p x)

/-- Does a max-pool node occur anywhere in the expression? -/
def hasMaxPool : TFExpr → Bool
  | .X => false
  | .yLabels => false
  | .var _ => false
  | .conv2d x w _ _ => hasMaxPool x || hasMaxPool w
  | .relu x => hasMaxPool x
  | .identityE x => hasMaxPool x
  | .maxPool _ _ _ _ => true
  | .add a b => hasMaxPool a || hasMaxPool b
  | .smul _ x => hasMaxPool x
  | .momentsMean x _ => hasMaxPool x
  | .momentsVar x _ => hasMaxPool x
  | .condEqPhase _ t f => hasMaxPool t || hasMaxPool f
  | .batchNormalization x m v b g _ =>
      hasMaxPool x || hasMaxPool m || hasMaxPool v || hasMaxPool b || hasMaxPool g
  | .reduceMean x _ => hasMaxPool x
  | .reshape x _ => hasMaxPool x
  | .matmul a b => hasMaxPool a || hasMaxPool b
  | .softmaxCEv2 l lo => hasMaxPool l || hasMaxPool lo
  | .l2loss x => hasMaxPool x
  | .argmax x _ => hasMaxPool x
  | .equalE a b => hasMaxPool a || hasMaxPool b
  | .castFloat x => hasMaxPool x

/-- Invariant of the regularization bookkeeping during graph construction: no
regularization-loss term has been emitted yet, the "regularizable_variables"
collection has no duplicate entries, and every entry is the W kernel of some conv
or fc layer (its last name component is "W"). -/
def RegInv (s : BState) : Prop :=
  s.regLosses = [] ∧ s.regularizable.Nodup ∧ ∀ p ∈ s.regularizable, p.getLast? = some "W"

/-- No declared variable sits in an "fc" scope; this holds throughout construction
until the final fully-connected layer itself is built. -/
def NoFcVar (s : BState) : Prop := ∀ vd ∈ s.vars, vd.name.getD 1 "" ≠ "fc"

/-- The scope situations in which a layer builder named nm is invoked during
set_up: either at the top level or inside exactly one enclosing scope, with a
layer name other than "fc". -/
def ScOk (nm : String) (s : BState) : Prop :=
  s.scopes = [] ∨ ∃ u, s.scopes = [u] ∧ nm ≠ "fc"

/-! ### Lemmas about the primitive builder operations -/

theorem foldl_preserve {α β : Type _} (P : β → Prop) (f : β → α → β)
    (hf : ∀ b a, P b → P (f b a)) :
    ∀ (l : List α) (b : β), P b → P (l.foldl f b) := by
  intro l
  induction l with
  | nil => intro b hb; exact hb
  | cons a t ih => intro b hb; exact ih _ (hf b a hb)

theorem getVariable_fst (nm : String) (sh : List Nat) (ini : InitKind) (tr : Bool)
    (s : BState) : (getVariable nm sh ini tr s).1 = .var (fullName s nm) := rfl

theorem getVariable_scopes (nm : String) (sh : List Nat) (ini : InitKind) (tr : Bool)
    (s : BState) : (getVariable nm sh ini tr s).2.scopes = s.scopes := by
  unfold getVariable
  dsimp only
  split <;> rfl

theorem getVariable_regularizable (nm : String) (sh : List Nat) (ini : InitKind)
    (tr : Bool) (s : BState) :
    (getVariable nm sh ini tr s).2.regularizable = s.regularizable := by
  unfold getVariable
  dsimp only
  split <;> rfl

theorem getVariable_regLosses (nm : String) (sh : List Nat) (ini : InitKind)
    (tr : Bool) (s : BState) :
    (getVariable nm sh ini tr s).2.regLosses = s.regLosses := by
  unfold getVariable
  dsimp only
  split <;> rfl

theorem getVariable_updateOps (nm : String) (sh : List Nat) (ini : InitKind)
    (tr : Bool) (s : BState) :
    (getVariable nm sh ini tr s).2.updateOps = s.updateOps := by
  unfold getVariable
  dsimp only
  split <;> rfl

theorem getVariable_vars (nm : String) (sh : List Nat) (ini : InitKind) (tr : Bool)
    (s : BState) :
    (getVariable nm sh ini tr s).2.vars =
      if declared s (fullName s nm) then s.vars
      else s.vars ++ [⟨fullName s nm, sh, ini, tr⟩] := by
  unfold getVariable
  dsimp only
  split <;> simp_all

theorem getVariable_vars_mono (nm : String) (sh : List Nat) (ini : InitKind)
    (tr : Bool) (s : BState) (vd : VarDecl) (h : vd ∈ s.vars) :
    vd ∈ (getVariable nm sh ini tr s).2.vars := by
  rw [getVariable_vars]
  split
  · exact h
  · exact List.mem_append_left _ h

theorem getVariable_vars_sub (nm : String) (sh : List Nat) (ini : InitKind)
    (tr : Bool) (s : BState) (vd : VarDecl)
    (h : vd ∈ (getVariable nm sh ini tr s).2.vars) :
    vd ∈ s.vars ∨ vd = ⟨fullName s nm, sh, ini, tr⟩ := by
  rw [getVariable_vars] at h
  split at h
  · exact Or.inl h
  · rcases List.mem_append.1 h with h1 | h2
    · exact Or.inl h1
    · exact Or.inr (List.mem_singleton.1 h2)

theorem addToRegularizable_scopes (n : VName) (s : BState) :
    (addToRegularizable n s).scopes = s.scopes := by
  unfold addToRegularizable
  split <;> rfl

theorem addToRegularizable_vars (n : VName) (s : BState) :
    (addToRegularizable n s).vars = s.vars := by
  unfold addToRegularizable
  split <;> rfl

theorem addToRegularizable_regLosses (n : VName) (s : BState) :
    (addToRegularizable n s).regLosses = s.regLosses := by
  unfold addToRegularizable
  split <;> rfl

theorem addToRegularizable_updateOps (n : VName) (s : BState) :
    (addToRegularizable n s).updateOps = s.updateOps := by
  unfold addToRegularizable
  split <;> rfl

theorem addToRegularizable_regularizable (n : VName) (s : BState) :
    (addToRegularizable n s).regularizable =
      if n ∈ s.regularizable then s.regularizable else s.regularizable ++ [n] := by
  unfold addToRegularizable
  split <;> simp_all

theorem addToRegularizable_declared (m : VName) (s : BState) (n : VName) :
    declared (addToRegularizable m s) n = declared s n := by
  unfold addToRegularizable
  split <;> rfl

theorem addToRegularizable_fullName (m : VName) (s : BState) (nm : String) :
    fullName (addToRegularizable m s) nm = fullName s nm := by
  unfold addToRegularizable
  split <;> rfl

theorem conv_fst (x : TVal) (fs oc st : Nat) (pad nm : String) (s : BState) :
    (conv x fs oc st pad nm s).1 =
      ⟨.conv2d x.e (.var (fullName (pushScope nm s) "W")) st pad,
       convShape x.shape st oc⟩ := rfl

theorem conv_scopes (x : TVal) (fs oc st : Nat) (pad nm : String) (s : BState) :
    (conv x fs oc st pad nm s).2.scopes = s.scopes := by
  unfold conv
  dsimp only
  simp [popScope, pushScope, addToRegularizable_scopes, getVariable_scopes]

theorem conv_regLosses (x : TVal) (fs oc st : Nat) (pad nm : String) (s : BState) :
    (conv x fs oc st pad nm s).2.regLosses = s.regLosses := by
  unfold conv
  dsimp only
  simp [popScope, pushScope, addToRegularizable_regLosses, getVariable_regLosses]

theorem conv_updateOps (x : TVal) (fs oc st : Nat) (pad nm : String) (s : BState) :
    (conv x fs oc st pad nm s).2.updateOps = s.updateOps := by
  unfold conv
  dsimp only
  simp [popScope, pushScope, addToRegularizable_updateOps, getVariable_updateOps]

theorem conv_regularizable (x : TVal) (fs oc st : Nat) (pad nm : String) (s : BState) :
    (conv x fs oc st pad nm s).2.regularizable =
      if fullName (pushScope nm s) "W" ∈ s.regularizable then s.regularizable
      else s.regularizable ++ [fullName (pushScope nm s) "W"] := by
  unfold conv
  dsimp only
  simp only [popScope, addToRegularizable_regularizable, getVariable_regularizable]
  rfl

theorem conv_vars_mono (x : TVal) (fs oc st : Nat) (pad nm : String) (s : BState)
    (vd : VarDecl) (h : vd ∈ s.vars) : vd ∈ (conv x fs oc st pad nm s).2.vars := by
  unfold conv
  dsimp only
  simp only [popScope, addToRegularizable_vars]
  exact getVariable_vars_mono _ _ _ _ (pushScope nm s) vd h

theorem conv_vars_sub (x : TVal) (fs oc st : Nat) (pad nm : String) (s : BState)
    (vd : VarDecl) (h : vd ∈ (conv x fs oc st pad nm s).2.vars) :
    vd ∈ s.vars ∨ vd.name = fullName (pushScope nm s) "W" := by
  unfold conv at h
  dsimp only at h
  simp only [popScope, addToRegularizable_vars] at h
  rcases getVariable_vars_sub _ _ _ _ _ _ h with h3 | h3
  · exact Or.inl h3
  · exact Or.inr (by rw [h3])

theorem batch_norm_fst (x : TVal) (decay : ℚ) (nm : String) (s : BState) :
    (batch_norm x decay nm s).1 =
      ⟨.batchNormalization x.e
        (.condEqPhase "train" (.momentsMean x.e [0, 1, 2])
          (.var (fullName (pushScope nm s) "mean_avg")))
        (.condEqPhase "train" (.momentsVar x.e [0, 1, 2])
          (.var (fullName (pushScope nm s) "std_avg")))
        (.var (fullName (pushScope nm s) "beta"))
        (.var (fullName (pushScope nm s) "gamma")) (1 / 100000), x.shape⟩ := by
  unfold batch_norm
  dsimp only
  simp [getVariable_fst, fullName, getVariable_scopes]

theorem batch_norm_scopes (x : TVal) (decay : ℚ) (nm : String) (s : BState) :
    (batch_norm x decay nm s).2.scopes = s.scopes := by
  unfold batch_norm
  dsimp only
  simp [popScope, pushScope, getVariable_scopes]

theorem batch_norm_regLosses (x : TVal) (decay : ℚ) (nm : String) (s : BState) :
    (batch_norm x decay nm s).2.regLosses = s.regLosses := by
  unfold batch_norm
  dsimp only
  simp [popScope, pushScope, getVariable_regLosses]

theorem batch_norm_regularizable (x : TVal) (decay : ℚ) (nm : String) (s : BState) :
    (batch_norm x decay nm s).2.regularizable = s.regularizable := by
  unfold batch_norm
  dsimp only
  simp [popScope, pushScope, getVariable_regularizable]

theorem batch_norm_updateOps (x : TVal) (decay : ℚ) (nm : String) (s : BState) :
    (batch_norm x decay nm s).2.updateOps = s.updateOps ++
      [⟨fullName (pushScope nm s) "mean_avg",
        .add (.smul decay (.var (fullName (pushScope nm s) "mean_avg")))
             (.smul (1 - decay) (.momentsMean x.e [0, 1, 2]))⟩,
       ⟨fullName (pushScope nm s) "std_avg",
        .add (.smul decay (.var (fullName (pushScope nm s) "std_avg")))
             (.smul (1 - decay) (.momentsVar x.e [0, 1, 2]))⟩] := by
  unfold batch_norm
  dsimp only
  simp [popScope, pushScope, getVariable_updateOps, getVariable_fst, fullName,
    getVariable_scopes]

theorem batch_norm_vars_mono (x : TVal) (decay : ℚ) (nm : String) (s : BState)
    (vd : VarDecl) (h : vd ∈ s.vars) : vd ∈ (batch_norm x decay nm s).2.vars := by
  unfold batch_norm
  dsimp only
  simp only [popScope]
  exact getVariable_vars_mono _ _ _ _ _ vd
    (getVariable_vars_mono _ _ _ _ _ vd
      (getVariable_vars_mono _ _ _ _ _ vd
        (getVariable_vars_mono _ _ _ _ _ vd h)))

theorem batch_norm_vars_sub (x : TVal) (decay : ℚ) (nm : String) (s : BState)
    (vd : VarDecl) (h : vd ∈ (batch_norm x decay nm s).2.vars) :
    vd ∈ s.vars ∨ vd.name ∈
      [fullName (pushScope nm s) "mean_avg", fullName (pushScope nm s) "std_avg",
       fullName (pushScope nm s) "beta", fullName (pushScope nm s) "gamma"] := by
  unfold batch_norm at h
  dsimp only at h
  simp only [popScope] at h
  rcases getVariable_vars_sub _ _ _ _ _ _ h with h4 | h4
  · rcases getVariable_vars_sub _ _ _ _ _ _ h4 with h3 | h3
    · rcases getVariable_vars_sub _ _ _ _ _ _ h3 with h2 | h2
      · rcases getVariable_vars_sub _ _ _ _ _ _ h2 with h1 | h1
        · exact Or.inl h1
        · refine Or.inr ?_
          rw [h1]
          simp [fullName]
      · refine Or.inr ?_
        rw [h2]
        simp [fullName, getVariable_scopes]
    · refine Or.inr ?_
      rw [h3]
      simp [fullName, getVariable_scopes]
  · refine Or.inr ?_
    rw [h4]
    simp [fullName, getVariable_scopes]

theorem fc_fst (x : TVal) (od : Nat) (nm : String) (s : BState) :
    (fc x od nm s).1 =
      ⟨.add (.matmul x.e (.var (fullName (pushScope nm s) "W")))
            (.var (fullName (pushScope nm s) "b")), [x.shape.getD 0 0, od]⟩ := by
  unfold fc
  dsimp only
  simp [getVariable_fst, fullName, addToRegularizable_scopes, getVariable_scopes,
    pushScope]

theorem fc_scopes (x : TVal) (od : Nat) (nm : String) (s : BState) :
    (fc x od nm s).2.scopes = s.scopes := by
  unfold fc
  dsimp only
  simp [popScope, pushScope, addToRegularizable_scopes, getVariable_scopes]

theorem fc_regLosses (x : TVal) (od : Nat) (nm : String) (s : BState) :
    (fc x od nm s).2.regLosses = s.regLosses := by
  unfold fc
  dsimp only
  simp [popScope, pushScope, addToRegularizable_regLosses, getVariable_regLosses]

theorem fc_updateOps (x : TVal) (od : Nat) (nm : String) (s : BState) :
    (fc x od nm s).2.updateOps = s.updateOps := by
  unfold fc
  dsimp only
  simp [popScope, pushScope, addToRegularizable_updateOps, getVariable_updateOps]

theorem fc_regularizable (x : TVal) (od : Nat) (nm : String) (s : BState) :
    (fc x od nm s).2.regularizable =
      if fullName (pushScope nm s) "W" ∈ s.regularizable then s.regularizable
      else s.regularizable ++ [fullName (pushScope nm s) "W"] := by
  unfold fc
  dsimp only
  simp only [popScope, getVariable_regularizable, addToRegularizable_regularizable]
  rfl

theorem fc_vars_mono (x : TVal) (od : Nat) (nm : String) (s : BState)
    (vd : VarDecl) (h : vd ∈ s.vars) : vd ∈ (fc x od nm s).2.vars := by
  unfold fc
  dsimp only
  simp only [popScope]
  apply getVariable_vars_mono
  rw [addToRegularizable_vars]
  exact getVariable_vars_mono _ _ _ _ _ vd h

theorem fc_vars_sub (x : TVal) (od : Nat) (nm : String) (s : BState)
    (vd : VarDecl) (h : vd ∈ (fc x od nm s).2.vars) :
    vd ∈ s.vars ∨ vd.name ∈
      [fullName (pushScope nm s) "W", fullName (pushScope nm s) "b"] := by
  unfold fc at h
  dsimp only at h
  simp only [popScope] at h
  rcases getVariable_vars_sub _ _ _ _ _ _ h with h2 | h2
  · rw [addToRegularizable_vars] at h2
    rcases getVariable_vars_sub _ _ _ _ _ _ h2 with h1 | h1
    · exact Or.inl h1
    · refine Or.inr ?_
      rw [h1]
      simp [fullName, getVariable_scopes]
  · refine Or.inr ?_
    rw [h2]
    simp [fullName, addToRegularizable_scopes, getVariable_scopes]

theorem shortcutOf_scopes (fP fC st : Nat) (x : TVal) (s : BState) :
    (shortcutOf fP fC st x s).2.scopes = s.scopes := by
  unfold shortcutOf
  split
  · split <;> rfl
  · exact conv_scopes x 1 fC st "SAME" "shortcut" s

theorem shortcutOf_regLosses (fP fC st : Nat) (x : TVal) (s : BState) :
    (shortcutOf fP fC st x s).2.regLosses = s.regLosses := by
  unfold shortcutOf
  split
  · split <;> rfl
  · exact conv_regLosses x 1 fC st "SAME" "shortcut" s

theorem shortcutOf_updateOps (fP fC st : Nat) (x : TVal) (s : BState) :
    (shortcutOf fP fC st x s).2.updateOps = s.updateOps := by
  unfold shortcutOf
  split
  · split <;> rfl
  · exact conv_updateOps x 1 fC st "SAME" "shortcut" s

theorem shortcutOf_vars_mono (fP fC st : Nat) (x : TVal) (s : BState)
    (vd : VarDecl) (h : vd ∈ s.vars) : vd ∈ (shortcutOf fP fC st x s).2.vars := by
  unfold shortcutOf
  split
  · split <;> exact h
  · exact conv_vars_mono x 1 fC st "SAME" "shortcut" s vd h

theorem concat_nodup {α : Type _} [DecidableEq α] {l : List α} {a : α}
    (h : l.Nodup) (ha : a ∉ l) : (l ++ [a]).Nodup := by
  rw [List.nodup_append]
  exact ⟨h, List.nodup_singleton a, by simpa [List.disjoint_singleton] using ha⟩

theorem conv_RegInv (x : TVal) (fs oc st : Nat) (pad nm : String) (s : BState)
    (h : RegInv s) : RegInv (conv x fs oc st pad nm s).2 := by
  obtain ⟨h1, h2, h3⟩ := h
  refine ⟨?_, ?_, ?_⟩
  · rw [conv_regLosses]; exact h1
  · rw [conv_regularizable]
    split
    · exact h2
    · exact concat_nodup h2 (by assumption)
  · rw [conv_regularizable]
    split
    · exact h3
    · intro p hp
      rcases List.mem_append.1 hp with hp1 | hp2
      · exact h3 p hp1
      · rw [List.mem_singleton.1 hp2]
        simp [fullName]

theorem fc_RegInv (x : TVal) (od : Nat) (nm : String) (s : BState)
    (h : RegInv s) : RegInv (fc x od nm s).2 := by
  obtain ⟨h1, h2, h3⟩ := h
  refine ⟨?_, ?_, ?_⟩
  · rw [fc_regLosses]; exact h1
  · rw [fc_regularizable]
    split
    · exact h2
    · exact concat_nodup h2 (by assumption)
  · rw [fc_regularizable]
    split
    · exact h3
    · intro p hp
      rcases List.mem_append.1 hp with hp1 | hp2
      · exact h3 p hp1
      · rw [List.mem_singleton.1 hp2]
        simp [fullName]

theorem batch_norm_RegInv (x : TVal) (decay : ℚ) (nm : String) (s : BState)
    (h : RegInv s) : RegInv (batch_norm x decay nm s).2 := by
  obtain ⟨h1, h2, h3⟩ := h
  exact ⟨by rw [batch_norm_regLosses]; exact h1,
         by rw [batch_norm_regularizable]; exact h2,
         by rw [batch_norm_regularizable]; exact h3⟩

theorem shortcutOf_RegInv (fP fC st : Nat) (x : TVal) (s : BState)
    (h : RegInv s) : RegInv (shortcutOf fP fC st x s).2 := by
  unfold shortcutOf
  split
  · split <;> exact h
  · exact conv_RegInv x 1 fC st "SAME" "shortcut" s h

theorem conv_NoFcVar (x : TVal) (fs oc st : Nat) (pad nm : String) (s : BState)
    (h : NoFcVar s) (hsc : ScOk nm s) : NoFcVar (conv x fs oc st pad nm s).2 := by
  intro vd hvd
  rcases conv_vars_sub x fs oc st pad nm s vd hvd with h1 | h1
  · exact h vd h1
  · rw [h1]
    rcases hsc with h2 | ⟨u, h2, h3⟩
    · simp [fullName, pushScope, h2]
    · simp [fullName, pushScope, h2]
      exact h3

theorem batch_norm_NoFcVar (x : TVal) (decay : ℚ) (nm : String) (s : BState)
    (h : NoFcVar s) (hsc : ScOk nm s) : NoFcVar (batch_norm x decay nm s).2 := by
  intro vd hvd
  rcases batch_norm_vars_sub x decay nm s vd hvd with h1 | h1
  · exact h vd h1
  · rcases hsc with h2 | ⟨u, h2, h3⟩ <;>
      · simp only [fullName, pushScope, h2, List.mem_cons] at h1
        rcases h1 with h1 | h1 | h1 | h1 | h1 <;> simp_all

theorem shortcutOf_NoFcVar (fP fC st : Nat) (x : TVal) (s : BState)
    (h : NoFcVar s) (hsc : ScOk "shortcut" s) :
    NoFcVar (shortcutOf fP fC st x s).2 := by
  unfold shortcutOf
  split
  · split <;> exact h
  · exact conv_NoFcVar x 1 fC st "SAME" "shortcut" s h hsc

theorem firstUnit_shape (bnd : ℚ) (k i : Nat) (xs : TVal × BState) :
    (firstUnit bnd k i xs).1.shape =
      convShape (convShape xs.1.shape (strides.getD (i - 1) 0) ((filters k).getD i 0))
        1 ((filters k).getD i 0) := rfl

theorem furtherUnit_shape (bnd : ℚ) (k i j : Nat) (xs : TVal × BState) :
    (furtherUnit bnd k i j xs).1.shape =
      convShape (convShape xs.1.shape 1 ((filters k).getD i 0)) 1 ((filters k).getD i 0) :=
  rfl

theorem firstUnit_scopes (bnd : ℚ) (k i : Nat) (xs : TVal × BState) :
    (firstUnit bnd k i xs).2.scopes = xs.2.scopes := by
  unfold firstUnit
  dsimp only
  simp [popScope, pushScope, conv_scopes, batch_norm_scopes, shortcutOf_scopes]

theorem furtherUnit_scopes (bnd : ℚ) (k i j : Nat) (xs : TVal × BState) :
    (furtherUnit bnd k i j xs).2.scopes = xs.2.scopes := by
  unfold furtherUnit
  dsimp only
  simp [popScope, pushScope, conv_scopes, batch_norm_scopes]

theorem popScope_RegInv (s : BState) (h : RegInv s) : RegInv (popScope s) := h

theorem pushScope_RegInv (nm : String) (s : BState) (h : RegInv s) :
    RegInv (pushScope nm s) := h

theorem popScope_NoFcVar (s : BState) (h : NoFcVar s) : NoFcVar (popScope s) := h

theorem pushScope_NoFcVar (nm : String) (s : BState) (h : NoFcVar s) :
    NoFcVar (pushScope nm s) := h

theorem firstUnit_RegInv (bnd : ℚ) (k i : Nat) (xs : TVal × BState)
    (h : RegInv xs.2) : RegInv (firstUnit bnd k i xs).2 := by
  unfold firstUnit
  dsimp only
  apply popScope_RegInv
  apply conv_RegInv
  apply batch_norm_RegInv
  apply conv_RegInv
  apply shortcutOf_RegInv
  apply batch_norm_RegInv
  exact pushScope_RegInv _ _ h

theorem furtherUnit_RegInv (bnd : ℚ) (k i j : Nat) (xs : TVal × BState)
    (h : RegInv xs.2) : RegInv (furtherUnit bnd k i j xs).2 := by
  unfold furtherUnit
  dsimp only
  apply popScope_RegInv
  apply conv_RegInv
  apply batch_norm_RegInv
  apply conv_RegInv
  apply batch_norm_RegInv
  exact pushScope_RegInv _ _ h

theorem firstUnit_NoFcVar (bnd : ℚ) (k i : Nat) (xs : TVal × BState)
    (h : NoFcVar xs.2) (hsc : xs.2.scopes = []) : NoFcVar (firstUnit bnd k i xs).2 := by
  unfold firstUnit
  dsimp only
  apply popScope_NoFcVar
  apply conv_NoFcVar
  · apply batch_norm_NoFcVar
    · apply conv_NoFcVar
      · apply shortcutOf_NoFcVar
        · apply batch_norm_NoFcVar
          · exact pushScope_NoFcVar _ _ h
          · exact Or.inr ⟨"unit_" ++ toString i ++ "_0",
              by simp [pushScope, hsc], by decide⟩
        · exact Or.inr ⟨"unit_" ++ toString i ++ "_0",
            by simp [batch_norm_scopes, pushScope, hsc], by decide⟩
      · exact Or.inr ⟨"unit_" ++ toString i ++ "_0",
          by simp [shortcutOf_scopes, batch_norm_scopes, pushScope, hsc], by decide⟩
    · exact Or.inr ⟨"unit_" ++ toString i ++ "_0",
        by simp [conv_scopes, shortcutOf_scopes, batch_norm_scopes, pushScope, hsc],
        by decide⟩
  · exact Or.inr ⟨"unit_" ++ toString i ++ "_0",
      by simp [batch_norm_scopes, conv_scopes, shortcutOf_scopes, pushScope, hsc],
      by decide⟩

theorem furtherUnit_NoFcVar (bnd : ℚ) (k i j : Nat) (xs : TVal × BState)
    (h : NoFcVar xs.2) (hsc : xs.2.scopes = []) :
    NoFcVar (furtherUnit bnd k i j xs).2 := by
  unfold furtherUnit
  dsimp only
  apply popScope_NoFcVar
  apply conv_NoFcVar
  · apply batch_norm_NoFcVar
    · apply conv_NoFcVar
      · apply batch_norm_NoFcVar
        · exact pushScope_NoFcVar _ _ h
        · exact Or.inr ⟨"unit_" ++ toString i ++ "_" ++ toString j,
            by simp [pushScope, hsc], by decide⟩
      · exact Or.inr ⟨"unit_" ++ toString i ++ "_" ++ toString j,
          by simp [batch_norm_scopes, pushScope, hsc], by decide⟩
    · exact Or.inr ⟨"unit_" ++ toString i ++ "_" ++ toString j,
        by simp [conv_scopes, batch_norm_scopes, pushScope, hsc], by decide⟩
  · exact Or.inr ⟨"unit_" ++ toString i ++ "_" ++ toString j,
      by simp [batch_norm_scopes, conv_scopes, pushScope, hsc], by decide⟩

theorem firstUnit_vars_mono (bnd : ℚ) (k i : Nat) (xs : TVal × BState)
    (vd : VarDecl) (h : vd ∈ xs.2.vars) : vd ∈ (firstUnit bnd k i xs).2.vars := by
  unfold firstUnit
  dsimp only
  simp only [popScope]
  exact conv_vars_mono _ _ _ _ _ _ _ vd
    (batch_norm_vars_mono _ _ _ _ vd
      (conv_vars_mono _ _ _ _ _ _ _ vd
        (shortcutOf_vars_mono _ _ _ _ _ vd
          (batch_norm_vars_mono _ _ _ _ vd h))))

theorem furtherUnit_vars_mono (bnd : ℚ) (k i j : Nat) (xs : TVal × BState)
    (vd : VarDecl) (h : vd ∈ xs.2.vars) : vd ∈ (furtherUnit bnd k i j xs).2.vars := by
  unfold furtherUnit
  dsimp only
  simp only [popScope]
  exact conv_vars_mono _ _ _ _ _ _ _ vd
    (batch_norm_vars_mono _ _ _ _ vd
      (conv_vars_mono _ _ _ _ _ _ _ vd
        (batch_norm_vars_mono _ _ _ _ vd h)))

theorem runBlock_inv (bnd : ℚ) (k n i : Nat) (xs : TVal × BState)
    (h : xs.2.scopes = [] ∧ RegInv xs.2 ∧ NoFcVar xs.2) :
    (runBlock bnd k n i xs).2.scopes = [] ∧ RegInv (runBlock bnd k n i xs).2 ∧
      NoFcVar (runBlock bnd k n i xs).2 := by
  unfold runBlock
  refine foldl_preserve
    (fun (acc : TVal × BState) => acc.2.scopes = [] ∧ RegInv acc.2 ∧ NoFcVar acc.2)
    _ ?_ _ _ ?_
  · rintro acc j ⟨hs, hr, hf⟩
    refine ⟨?_, ?_, ?_⟩
    · rw [furtherUnit_scopes]; exact hs
    · exact furtherUnit_RegInv bnd k i j acc hr
    · exact furtherUnit_NoFcVar bnd k i j acc hf hs
  · obtain ⟨hs, hr, hf⟩ := h
    refine ⟨?_, ?_, ?_⟩
    · rw [firstUnit_scopes]; exact hs
    · exact firstUnit_RegInv bnd k i xs hr
    · exact firstUnit_NoFcVar bnd k i xs hf hs

theorem runBlock_vars_mono (bnd : ℚ) (k n i : Nat) (xs : TVal × BState)
    (vd : VarDecl) (h : vd ∈ xs.2.vars) : vd ∈ (runBlock bnd k n i xs).2.vars := by
  unfold runBlock
  exact foldl_preserve (fun (acc : TVal × BState) => vd ∈ acc.2.vars) _
    (fun acc j hm => furtherUnit_vars_mono bnd k i j acc vd hm) _ _
    (firstUnit_vars_mono bnd k i xs vd h)

theorem runBlock_shape (bnd : ℚ) (k n i : Nat) (xs : TVal × BState) (B : Nat)
    (h : xs.1.shape.getD 0 0 = B) :
    (runBlock bnd k n i xs).1.shape.getD 0 0 = B ∧
      (runBlock bnd k n i xs).1.shape.getD 3 0 = (filters k).getD i 0 := by
  unfold runBlock
  have c0 : ∀ (sh : List Nat) (st oc : Nat), (convShape sh st oc).getD 0 0 = sh.getD 0 0 :=
    fun _ _ _ => rfl
  have c3 : ∀ (sh : List Nat) (st oc : Nat), (convShape sh st oc).getD 3 0 = oc :=
    fun _ _ _ => rfl
  refine foldl_preserve
    (fun (acc : TVal × BState) =>
      acc.1.shape.getD 0 0 = B ∧ acc.1.shape.getD 3 0 = (filters k).getD i 0)
    _ ?_ _ _ ?_
  · rintro acc j ⟨h0, _⟩
    exact ⟨by rw [furtherUnit_shape, c0, c0]; exact h0,
           by rw [furtherUnit_shape, c3]⟩
  · exact ⟨by rw [firstUnit_shape, c0, c0]; exact h,
           by rw [firstUnit_shape, c3]⟩

theorem runBlock_RegInv (bnd : ℚ) (k n i : Nat) (xs : TVal × BState)
    (h : RegInv xs.2) : RegInv (runBlock bnd k n i xs).2 := by
  unfold runBlock
  exact foldl_preserve (fun (acc : TVal × BState) => RegInv acc.2) _
    (fun acc j hr => furtherUnit_RegInv bnd k i j acc hr) _ _
    (firstUnit_RegInv bnd k i xs h)

theorem initialState_triple :
    initialState.scopes = [] ∧ RegInv initialState ∧ NoFcVar initialState := by
  refine ⟨rfl, ⟨rfl, List.nodup_nil, ?_⟩, ?_⟩
  · intro p hp
    simp [initialState] at hp
  · intro vd hvd
    simp [initialState] at hvd

theorem setUpTail_RegInv (y : TVal) (wd bnd : ℚ) (xbs : TVal × BState)
    (hr : RegInv xbs.2) :
    (setUpTail y wd bnd xbs).2.regularizable.Nodup ∧
    (∀ p ∈ (setUpTail y wd bnd xbs).2.regularizable, p.getLast? = some "W") ∧
    (setUpTail y wd bnd xbs).2.regLosses =
      (setUpTail y wd bnd xbs).2.regularizable.map
        (fun w => TFExpr.smul wd (.l2loss (.var w))) := by
  unfold setUpTail
  dsimp only
  have h3 := batch_norm_RegInv xbs.1 bnd "batch_norm" (pushScope "unit_last" xbs.2)
    (pushScope_RegInv "unit_last" _ hr)
  have h4 := fc_RegInv
    ⟨.reshape (.reduceMean
        (.relu (batch_norm xbs.1 bnd "batch_norm" (pushScope "unit_last" xbs.2)).1.e)
        [1, 2])
       ((meanPoolShape
          (batch_norm xbs.1 bnd "batch_norm" (pushScope "unit_last" xbs.2)).1.shape).getD
          1 0),
     reshapeShape (meanPoolShape
        (batch_norm xbs.1 bnd "batch_norm" (pushScope "unit_last" xbs.2)).1.shape)
       ((meanPoolShape
          (batch_norm xbs.1 bnd "batch_norm" (pushScope "unit_last" xbs.2)).1.shape).getD
          1 0)⟩
    100 "fc"
    (pushScope "fully-connected"
      (popScope (batch_norm xbs.1 bnd "batch_norm" (pushScope "unit_last" xbs.2)).2))
    (pushScope_RegInv "fully-connected" _ (popScope_RegInv _ h3))
  have h5 := popScope_RegInv _ h4
  obtain ⟨e1, e2, e3⟩ := h5
  refine ⟨e2, e3, ?_⟩
  rw [e1]
  simp

theorem setUp_blocks_RegInv (bs n k : Nat) (bnd : ℚ) :
    RegInv ((xrange 1 4).foldl (fun acc i => runBlock bnd k n i acc)
      (conv ⟨.X, [bs, 32, 32, 3]⟩ 3 16 1 "SAME" "conv_0" initialState)).2 := by
  have h0 : RegInv initialState := initialState_triple.2.1
  have h1 := conv_RegInv ⟨.X, [bs, 32, 32, 3]⟩ 3 16 1 "SAME" "conv_0" initialState h0
  exact foldl_preserve (fun (acc : TVal × BState) => RegInv acc.2)
    (fun acc i => runBlock bnd k n i acc)
    (fun acc i hr => runBlock_RegInv bnd k n i acc hr) (xrange 1 4) _ h1

theorem setUp_final_RegInv (bs n k : Nat) (wd bnd : ℚ) :
    (setUpGraph ⟨bs⟩ n k wd bnd initialState).2.regularizable.Nodup ∧
    (∀ p ∈ (setUpGraph ⟨bs⟩ n k wd bnd initialState).2.regularizable,
      p.getLast? = some "W") ∧
    (setUpGraph ⟨bs⟩ n k wd bnd initialState).2.regLosses =
      (setUpGraph ⟨bs⟩ n k wd bnd initialState).2.regularizable.map
        (fun w => TFExpr.smul wd (.l2loss (.var w))) := by
  unfold setUpGraph DataLoading.load
  dsimp only
  exact setUpTail_RegInv _ wd bnd _ (setUp_blocks_RegInv bs n k bnd)

theorem fc_vars_fresh (x : TVal) (od : Nat) (s : BState) (h : NoFcVar s)
    (hs : s.scopes = ["fully-connected"]) :
    (fc x od "fc" s).2.vars = s.vars ++
      [⟨["fully-connected", "fc", "W"], [x.shape.getD 1 0, od],
        .randomNormal (1 / ((od : Nat) : ℚ)), true⟩,
       ⟨["fully-connected", "fc", "b"], [od], .constant 0, true⟩] := by
  have hWfull : fullName (pushScope "fc" s) "W" = ["fully-connected", "fc", "W"] := by
    simp [fullName, pushScope, hs]
  have hbfull : fullName (pushScope "fc" s) "b" = ["fully-connected", "fc", "b"] := by
    simp [fullName, pushScope, hs]
  have hWd : declared (pushScope "fc" s) (fullName (pushScope "fc" s) "W") = false := by
    rw [Bool.eq_false_iff]
    intro hc
    rw [declared, List.any_eq_true] at hc
    obtain ⟨vd, hvd, hb⟩ := hc
    rw [beq_iff_eq, hWfull] at hb
    exact h vd hvd (by rw [hb]; rfl)
  have hWvars : (getVariable "W" [x.shape.getD 1 0, od]
      (.randomNormal (1 / ((od : Nat) : ℚ))) true (pushScope "fc" s)).2.vars =
      s.vars ++ [⟨["fully-connected", "fc", "W"], [x.shape.getD 1 0, od],
        .randomNormal (1 / ((od : Nat) : ℚ)), true⟩] := by
    rw [getVariable_vars, if_neg (by rw [hWd]; exact Bool.false_ne_true), hWfull]
    rfl
  have hscW : (getVariable "W" [x.shape.getD 1 0, od]
      (.randomNormal (1 / ((od : Nat) : ℚ))) true (pushScope "fc" s)).2.scopes =
      (pushScope "fc" s).scopes :=
    getVariable_scopes _ _ _ _ _
  have hfb : fullName (addToRegularizable (fullName (pushScope "fc" s) "W")
      (getVariable "W" [x.shape.getD 1 0, od]
        (.randomNormal (1 / ((od : Nat) : ℚ))) true (pushScope "fc" s)).2) "b" =
      ["fully-connected", "fc", "b"] := by
    rw [addToRegularizable_fullName, fullName, hscW]
    exact hbfull
  have hbd : declared (addToRegularizable (fullName (pushScope "fc" s) "W")
      (getVariable "W" [x.shape.getD 1 0, od]
        (.randomNormal (1 / ((od : Nat) : ℚ))) true (pushScope "fc" s)).2)
      (fullName (addToRegularizable (fullName (pushScope "fc" s) "W")
        (getVariable "W" [x.shape.getD 1 0, od]
          (.randomNormal (1 / ((od : Nat) : ℚ))) true (pushScope "fc" s)).2) "b") =
      false := by
    rw [hfb, addToRegularizable_declared]
    rw [Bool.eq_false_iff]
    intro hc
    rw [declared, List.any_eq_true] at hc
    obtain ⟨vd, hvd, hb⟩ := hc
    rw [hWvars] at hvd
    rw [beq_iff_eq] at hb
    rcases List.mem_append.1 hvd with h1 | h1
    · exact h vd h1 (by rw [hb]; rfl)
    · rw [List.mem_singleton] at h1
      rw [h1] at hb
      simp at hb
  unfold fc
  dsimp only
  simp only [popScope]
  rw [getVariable_vars, if_neg (by rw [hbd]; exact Bool.false_ne_true)]
  rw [addToRegularizable_vars, hWvars, hfb]
  simp

theorem setUp_blocks_triple (bs n k : Nat) (bnd : ℚ) :
    ((xrange 1 4).foldl (fun acc i => runBlock bnd k n i acc)
      (conv ⟨.X, [bs, 32, 32, 3]⟩ 3 16 1 "SAME" "conv_0" initialState)).2.scopes = [] ∧
    RegInv ((xrange 1 4).foldl (fun acc i => runBlock bnd k n i acc)
      (conv ⟨.X, [bs, 32, 32, 3]⟩ 3 16 1 "SAME" "conv_0" initialState)).2 ∧
    NoFcVar ((xrange 1 4).foldl (fun acc i => runBlock bnd k n i acc)
      (conv ⟨.X, [bs, 32, 32, 3]⟩ 3 16 1 "SAME" "conv_0" initialState)).2 := by
  obtain ⟨b1, b2, b3⟩ := initialState_triple
  have h1 : (conv ⟨.X, [bs, 32, 32, 3]⟩ 3 16 1 "SAME" "conv_0" initialState).2.scopes
      = [] ∧
      RegInv (conv ⟨.X, [bs, 32, 32, 3]⟩ 3 16 1 "SAME" "conv_0" initialState).2 ∧
      NoFcVar (conv ⟨.X, [bs, 32, 32, 3]⟩ 3 16 1 "SAME" "conv_0" initialState).2 := by
    refine ⟨?_, ?_, ?_⟩
    · rw [conv_scopes]; exact b1
    · exact conv_RegInv _ _ _ _ _ _ _ b2
    · exact conv_NoFcVar _ _ _ _ _ _ _ b3 (Or.inl b1)
  exact foldl_preserve
    (fun (acc : TVal × BState) => acc.2.scopes = [] ∧ RegInv acc.2 ∧ NoFcVar acc.2)
    (fun acc i => runBlock bnd k n i acc)
    (fun acc i hp => runBlock_inv bnd k n i acc hp) (xrange 1 4) _ h1

theorem setUp_blocks_shape (bs n k : Nat) (bnd : ℚ) :
    ((xrange 1 4).foldl (fun acc i => runBlock bnd k n i acc)
      (conv ⟨.X, [bs, 32, 32, 3]⟩ 3 16 1 "SAME" "conv_0" initialState)).1.shape.getD 0 0
      = bs ∧
    ((xrange 1 4).foldl (fun acc i => runBlock bnd k n i acc)
      (conv ⟨.X, [bs, 32, 32, 3]⟩ 3 16 1 "SAME" "conv_0" initialState)).1.shape.getD 3 0
      = 64 * k := by
  have e : xrange 1 4 = [1, 2, 3] := rfl
  rw [e]
  simp only [List.foldl_cons, List.foldl_nil]
  have h0 : (conv ⟨.X, [bs, 32, 32, 3]⟩ 3 16 1 "SAME" "conv_0"
      initialState).1.shape.getD 0 0 = bs := rfl
  have h1 := runBlock_shape bnd k n 1
    (conv ⟨.X, [bs, 32, 32, 3]⟩ 3 16 1 "SAME" "conv_0" initialState) bs h0
  have h2 := runBlock_shape bnd k n 2
    (runBlock bnd k n 1
      (conv ⟨.X, [bs, 32, 32, 3]⟩ 3 16 1 "SAME" "conv_0" initialState)) bs h1.1
  have h3 := runBlock_shape bnd k n 3
    (runBlock bnd k n 2 (runBlock bnd k n 1
      (conv ⟨.X, [bs, 32, 32, 3]⟩ 3 16 1 "SAME" "conv_0" initialState))) bs h2.1
  refine ⟨h3.1, ?_⟩
  rw [h3.2]
  rfl

set_option maxHeartbeats 1600000 in
theorem setUpTail_vars_mono (y : TVal) (wd bnd : ℚ) (xbs : TVal × BState)
    (vd : VarDecl) (h : vd ∈ xbs.2.vars) : vd ∈ (setUpTail y wd bnd xbs).2.vars := by
  unfold setUpTail
  dsimp only
  exact fc_vars_mono
    ⟨.reshape (.reduceMean
        (.relu (batch_norm xbs.1 bnd "batch_norm" (pushScope "unit_last" xbs.2)).1.e)
        [1, 2])
       ((meanPoolShape (batch_norm xbs.1 bnd "batch_norm"
          (pushScope "unit_last" xbs.2)).1.shape).getD 1 0),
     reshapeShape (meanPoolShape (batch_norm xbs.1 bnd "batch_norm"
        (pushScope "unit_last" xbs.2)).1.shape)
       ((meanPoolShape (batch_norm xbs.1 bnd "batch_norm"
          (pushScope "unit_last" xbs.2)).1.shape).getD 1 0)⟩
    100 "fc"
    (pushScope "fully-connected" (popScope (batch_norm xbs.1 bnd "batch_norm"
      (pushScope "unit_last" xbs.2)).2))
    vd
    (batch_norm_vars_mono xbs.1 bnd "batch_norm" (pushScope "unit_last" xbs.2) vd h)

theorem setUpTail_losses_e (y : TVal) (wd bnd : ℚ) (xbs : TVal × BState)
    (hs : xbs.2.scopes = []) :
    (setUpTail y wd bnd xbs).1.1.e = .softmaxCEv2 y.e
      (.add (.matmul (.reshape (.reduceMean
          (.relu (batch_norm xbs.1 bnd "batch_norm" (pushScope "unit_last" xbs.2)).1.e)
          [1, 2]) (xbs.1.shape.getD 3 0))
        (.var ["fully-connected", "fc", "W"]))
        (.var ["fully-connected", "fc", "b"])) := by
  have e1 : fullName (pushScope "fc" (pushScope "fully-connected"
      (popScope (batch_norm xbs.1 bnd "batch_norm"
        (pushScope "unit_last" xbs.2)).2))) "W" = ["fully-connected", "fc", "W"] := by
    simp [fullName, pushScope, popScope, batch_norm_scopes, hs]
  have e2 : fullName (pushScope "fc" (pushScope "fully-connected"
      (popScope (batch_norm xbs.1 bnd "batch_norm"
        (pushScope "unit_last" xbs.2)).2))) "b" = ["fully-connected", "fc", "b"] := by
    simp [fullName, pushScope, popScope, batch_norm_scopes, hs]
  unfold setUpTail
  dsimp only
  rw [fc_fst]
  dsimp only
  rw [e1, e2]
  rfl

theorem setUpTail_losses_shape (y : TVal) (wd bnd : ℚ) (xbs : TVal × BState) (bs C : Nat)
    (h0 : xbs.1.shape.getD 0 0 = bs) (h3 : xbs.1.shape.getD 3 0 = C) (hC : 0 < C) :
    (setUpTail y wd bnd xbs).1.1.shape = [bs] := by
  unfold setUpTail
  dsimp only
  rw [fc_fst]
  dsimp only
  have e : (reshapeShape (meanPoolShape
      (batch_norm xbs.1 bnd "batch_norm" (pushScope "unit_last" xbs.2)).1.shape)
      ((meanPoolShape (batch_norm xbs.1 bnd "batch_norm"
        (pushScope "unit_last" xbs.2)).1.shape).getD 1 0)).getD 0 0 =
      (xbs.1.shape.getD 0 0 * (xbs.1.shape.getD 3 0 * 1)) / xbs.1.shape.getD 3 0 := rfl
  rw [e, h0, h3, mul_one, Nat.mul_div_cancel bs hC]
  rfl

set_option maxHeartbeats 1600000 in
theorem setUpTail_fc_decls (y : TVal) (wd bnd : ℚ) (xbs : TVal × BState) (C : Nat)
    (hs : xbs.2.scopes = []) (hf : NoFcVar xbs.2) (h3 : xbs.1.shape.getD 3 0 = C) :
    (⟨["fully-connected", "fc", "W"], [C, 100],
      .randomNormal (1 / ((100 : Nat) : ℚ)), true⟩ : VarDecl) ∈
        (setUpTail y wd bnd xbs).2.vars ∧
    (⟨["fully-connected", "fc", "b"], [100], .constant 0, true⟩ : VarDecl) ∈
        (setUpTail y wd bnd xbs).2.vars := by
  have hsf : (pushScope "fully-connected" (popScope (batch_norm xbs.1 bnd "batch_norm"
      (pushScope "unit_last" xbs.2)).2)).scopes = ["fully-connected"] := by
    simp [pushScope, popScope, batch_norm_scopes, hs]
  have hnf : NoFcVar (pushScope "fully-connected" (popScope (batch_norm xbs.1 bnd
      "batch_norm" (pushScope "unit_last" xbs.2)).2)) := by
    apply pushScope_NoFcVar
    apply popScope_NoFcVar
    exact batch_norm_NoFcVar _ _ _ _ (pushScope_NoFcVar _ _ hf)
      (Or.inr ⟨"unit_last", by simp [pushScope, hs], by decide⟩)
  have hv := fc_vars_fresh
    ⟨.reshape (.reduceMean
        (.relu (batch_norm xbs.1 bnd "batch_norm" (pushScope "unit_last" xbs.2)).1.e)
        [1, 2])
       ((meanPoolShape (batch_norm xbs.1 bnd "batch_norm"
          (pushScope "unit_last" xbs.2)).1.shape).getD 1 0),
     reshapeShape (meanPoolShape (batch_norm xbs.1 bnd "batch_norm"
        (pushScope "unit_last" xbs.2)).1.shape)
       ((meanPoolShape (batch_norm xbs.1 bnd "batch_norm"
          (pushScope "unit_last" xbs.2)).1.shape).getD 1 0)⟩
    100
    (pushScope "fully-connected" (popScope (batch_norm xbs.1 bnd "batch_norm"
      (pushScope "unit_last" xbs.2)).2))
    hnf hsf
  have eC : (⟨.reshape (.reduceMean
        (.relu (batch_norm xbs.1 bnd "batch_norm" (pushScope "unit_last" xbs.2)).1.e)
        [1, 2])
       ((meanPoolShape (batch_norm xbs.1 bnd "batch_norm"
          (pushScope "unit_last" xbs.2)).1.shape).getD 1 0),
     reshapeShape (meanPoolShape (batch_norm xbs.1 bnd "batch_norm"
        (pushScope "unit_last" xbs.2)).1.shape)
       ((meanPoolShape (batch_norm xbs.1 bnd "batch_norm"
          (pushScope "unit_last" xbs.2)).1.shape).getD 1 0)⟩ : TVal).shape.getD 1 0
      = C := h3
  rw [eC] at hv
  unfold setUpTail
  dsimp only
  constructor
  · exact (by rw [hv]; simp :
      (⟨["fully-connected", "fc", "W"], [C, 100],
        .randomNormal (1 / ((100 : Nat) : ℚ)), true⟩ : VarDecl) ∈
        (fc ⟨.reshape (.reduceMean
            (.relu (batch_norm xbs.1 bnd "batch_norm"
              (pushScope "unit_last" xbs.2)).1.e) [1, 2])
           ((meanPoolShape (batch_norm xbs.1 bnd "batch_norm"
              (pushScope "unit_last" xbs.2)).1.shape).getD 1 0),
         reshapeShape (meanPoolShape (batch_norm xbs.1 bnd "batch_norm"
            (pushScope "unit_last" xbs.2)).1.shape)
           ((meanPoolShape (batch_norm xbs.1 bnd "batch_norm"
              (pushScope "unit_last" xbs.2)).1.shape).getD 1 0)⟩
          100 "fc"
          (pushScope "fully-connected" (popScope (batch_norm xbs.1 bnd "batch_norm"
            (pushScope "unit_last" xbs.2)).2))).2.vars)
  · exact (by rw [hv]; simp :
      (⟨["fully-connected", "fc", "b"], [100], .constant 0, true⟩ : VarDecl) ∈
        (fc ⟨.reshape (.reduceMean
            (.relu (batch_norm xbs.1 bnd "batch_norm"
              (pushScope "unit_last" xbs.2)).1.e) [1, 2])
           ((meanPoolShape (batch_norm xbs.1 bnd "batch_norm"
              (pushScope "unit_last" xbs.2)).1.shape).getD 1 0),
         reshapeShape (meanPoolShape (batch_norm xbs.1 bnd "batch_norm"
            (pushScope "unit_last" xbs.2)).1.shape)
           ((meanPoolShape (batch_norm xbs.1 bnd "batch_norm"
              (pushScope "unit_last" xbs.2)).1.shape).getD 1 0)⟩
          100 "fc"
          (pushScope "fully-connected" (popScope (batch_norm xbs.1 bnd "batch_norm"
            (pushScope "unit_last" xbs.2)).2))).2.vars)

/-! ### Claim theorems -/

/-- C1: for every input tensor x and phase value p, the batch_norm operation
normalizes x with the per-batch mean and variance computed over axes 0, 1, 2
exactly when the phase indicator equals "train", and with the stored
moving-average variables for every other phase value: specializing the built
graph to the phase value p selects the batch moments if and only if p = "train",
and the moving-average variables mean_avg/std_avg otherwise (in particular for
"train_eval" and "test"). -/
theorem batch_norm_phase_selection (x : TVal) (s : BState) (decay : ℚ) (nm p : String) :
    condResolve p ((batch_norm x decay nm s).1.e) =
      .batchNormalization (condResolve p x.e)
        (if p = "train" then .momentsMean (condResolve p x.e) [0, 1, 2]
         else .var (fullName (pushScope nm s) "mean_avg"))
        (if p = "train" then .momentsVar (condResolve p x.e) [0, 1, 2]
         else .var (fullName (pushScope nm s) "std_avg"))
        (.var (fullName (pushScope nm s) "beta"))
        (.var (fullName (pushScope nm s) "gamma"))
        (1 / 100000) := by
  rw [batch_norm_fst]
  dsimp only
  simp only [condResolve]

/-- C5: after construction, the set_up instance exposes exactly the three
phase-initialization operations train_init_op, train_eval_init_op and
test_init_op, each of which is tf.group applied to precisely the corresponding
initialization operation of the data_loading collaborator. -/
theorem set_up_phase_init_ops (bs n k : Nat) (wd bnd : ℚ) :
    (set_up_init bs n k wd bnd).data_loading = ⟨bs⟩ ∧
    (set_up_init bs n k wd bnd).train_init_op =
      .group [DataLoading.train_init_op ⟨bs⟩] ∧
    (set_up_init bs n k wd bnd).train_eval_init_op =
      .group [DataLoading.train_eval_init_op ⟨bs⟩] ∧
    (set_up_init bs n k wd bnd).test_init_op =
      .group [DataLoading.test_init_op ⟨bs⟩] :=
  ⟨rfl, rfl, rfl, rfl⟩

/-- C7: each batch_norm layer registers exactly two update operations in the
UPDATE_OPS collection, assigning the moving averages the values
decay * old_average + (1 - decay) * batch_statistic for the mean and for the
variance; batch_norm changes no other collection, and its return value is a pure
tensor expression, so the moving averages change only when these operations run. -/
theorem batch_norm_update_ops_registration (x : TVal) (decay : ℚ) (nm : String)
    (s : BState) :
    (batch_norm x decay nm s).2.updateOps = s.updateOps ++
      [⟨fullName (pushScope nm s) "mean_avg",
        .add (.smul decay (.var (fullName (pushScope nm s) "mean_avg")))
             (.smul (1 - decay) (.momentsMean x.e [0, 1, 2]))⟩,
       ⟨fullName (pushScope nm s) "std_avg",
        .add (.smul decay (.var (fullName (pushScope nm s) "std_avg")))
             (.smul (1 - decay) (.momentsVar x.e [0, 1, 2]))⟩] ∧
    (batch_norm x decay nm s).2.regularizable = s.regularizable ∧
    (batch_norm x decay nm s).2.regLosses = s.regLosses ∧
    (batch_norm x decay nm s).2.scopes = s.scopes :=
  ⟨batch_norm_updateOps x decay nm s, batch_norm_regularizable x decay nm s,
   batch_norm_regLosses x decay nm s, batch_norm_scopes x decay nm s⟩

/-- C3 (failing evaluation): under the runtime environment declared by
install_requires_list in setup.py (tensorflow~=2.5, hence TensorFlow major
version 2 and Python major version 3), constructing the graph fails at the very
first layer because tf.variable_scope does not exist in TensorFlow 2.x, rather
than producing the residual-network graph; with the TF1/Python-2 environment the
module was written for, the same construction succeeds and yields the graph. -/
theorem set_up_fails_under_declared_dependencies :
    setUpExec requiredPythonMajor requiredTensorflowMajor ⟨128⟩ 4 4 (1 / 2000) (9 / 10)
        initialState =
      .error "AttributeError: module tensorflow has no attribute variable_scope" ∧
    setUpExec 2 1 ⟨128⟩ 4 4 (1 / 2000) (9 / 10) initialState =
      .ok (setUpGraph ⟨128⟩ 4 4 (1 / 2000) (9 / 10) initialState) ∧
    xrangeExec requiredPythonMajor 1 4 =
      .error "NameError: name xrange is not defined" :=
  ⟨rfl, rfl, rfl⟩

/-- C10: in every batch_norm layer built in a graph where none of the four
variable names is already taken, the moving-average mean (mean_avg) is created
initialized to zeros and the moving-average variance (std_avg) to ones, both
non-trainable, while the learned shift beta is created initialized to zeros and
the learned scale gamma to ones, both trainable; the returned normalization uses
the fixed epsilon 1e-5 = 1/100000. -/
theorem batch_norm_variable_initialization (x : TVal) (decay : ℚ) (nm : String)
    (s : BState)
    (h : ∀ vd ∈ s.vars, vd.name.getLast? ∉
      ([some "mean_avg", some "std_avg", some "beta", some "gamma"] :
        List (Option String))) :
    (batch_norm x decay nm s).2.vars = s.vars ++
      [⟨fullName (pushScope nm s) "mean_avg", momentsShape x.shape, .zeros, false⟩,
       ⟨fullName (pushScope nm s) "std_avg", momentsShape x.shape, .ones, false⟩,
       ⟨fullName (pushScope nm s) "beta", momentsShape x.shape, .zeros, true⟩,
       ⟨fullName (pushScope nm s) "gamma", momentsShape x.shape, .ones, true⟩] ∧
    (batch_norm x decay nm s).1.e = .batchNormalization x.e
      (.condEqPhase "train" (.momentsMean x.e [0, 1, 2])
        (.var (fullName (pushScope nm s) "mean_avg")))
      (.condEqPhase "train" (.momentsVar x.e [0, 1, 2])
        (.var (fullName (pushScope nm s) "std_avg")))
      (.var (fullName (pushScope nm s) "beta"))
      (.var (fullName (pushScope nm s) "gamma")) (1 / 100000) := by
  have hlast : ∀ a : String, (fullName (pushScope nm s) a).getLast? = some a := by
    intro a
    rw [fullName]
    exact List.getLast?_concat _
  have main : ∀ a : String,
      some a ∈ ([some "mean_avg", some "std_avg", some "beta", some "gamma"] :
        List (Option String)) →
      ∀ L : List VarDecl,
      (∀ vd ∈ L, ∃ b : String, b ≠ a ∧ vd.name = fullName (pushScope nm s) b) →
      ((s.vars ++ L).any
        (fun v => v.name == fullName (pushScope nm s) a)) = false := by
    intro a ha L hL
    rw [Bool.eq_false_iff]
    intro hc
    rw [List.any_eq_true] at hc
    obtain ⟨vd, hvd, hb⟩ := hc
    rw [beq_iff_eq] at hb
    rcases List.mem_append.1 hvd with h1 | h1
    · exact (h vd h1) (by rw [hb, hlast]; exact ha)
    · obtain ⟨b, hba, hname⟩ := hL vd h1
      rw [hname, fullName, fullName] at hb
      have h2 := List.append_cancel_left hb
      simp at h2
      exact hba h2
  have pv : (pushScope nm s).vars = s.vars := rfl
  have c1 : ¬(declared (pushScope nm s)
      (fullName (pushScope nm s) "mean_avg") = true) := by
    simp only [declared, pv]
    have hm := main "mean_avg" (by simp) [] (by intro vd hv; simp at hv)
    rw [List.append_nil] at hm
    rw [hm]
    simp
  have hv1 : (getVariable "mean_avg" (momentsShape x.shape) .zeros false
      (pushScope nm s)).2.vars = s.vars ++
      [⟨fullName (pushScope nm s) "mean_avg", momentsShape x.shape, .zeros, false⟩] := by
    rw [getVariable_vars, if_neg c1, pv]
  have f2 : fullName (getVariable "mean_avg" (momentsShape x.shape) .zeros false
      (pushScope nm s)).2 "std_avg" = fullName (pushScope nm s) "std_avg" := by
    rw [fullName, fullName, getVariable_scopes]
  have c2 : ¬(declared (getVariable "mean_avg" (momentsShape x.shape) .zeros false
      (pushScope nm s)).2
      (fullName (getVariable "mean_avg" (momentsShape x.shape) .zeros false
        (pushScope nm s)).2 "std_avg") = true) := by
    simp only [declared, hv1, f2]
    have hm := main "std_avg" (by simp)
      [⟨fullName (pushScope nm s) "mean_avg", momentsShape x.shape, .zeros, false⟩]
      (by
        intro vd hv
        rw [List.mem_singleton] at hv
        exact ⟨"mean_avg", by decide, by rw [hv]⟩)
    rw [hm]
    simp
  have hv2 : (getVariable "std_avg" (momentsShape x.shape) .ones false
      (getVariable "mean_avg" (momentsShape x.shape) .zeros false
        (pushScope nm s)).2).2.vars = s.vars ++
      [⟨fullName (pushScope nm s) "mean_avg", momentsShape x.shape, .zeros, false⟩,
       ⟨fullName (pushScope nm s) "std_avg", momentsShape x.shape, .ones, false⟩] := by
    rw [getVariable_vars, if_neg c2, f2, hv1]
    simp
  have f3 : fullName (getVariable "std_avg" (momentsShape x.shape) .ones false
      (getVariable "mean_avg" (momentsShape x.shape) .zeros false
        (pushScope nm s)).2).2 "beta" = fullName (pushScope nm s) "beta" := by
    rw [fullName, fullName, getVariable_scopes, getVariable_scopes]
  have c3 : ¬(declared (getVariable "std_avg" (momentsShape x.shape) .ones false
      (getVariable "mean_avg" (momentsShape x.shape) .zeros false
        (pushScope nm s)).2).2
      (fullName (getVariable "std_avg" (momentsShape x.shape) .ones false
        (getVariable "mean_avg" (momentsShape x.shape) .zeros false
          (pushScope nm s)).2).2 "beta") = true) := by
    simp only [declared, hv2, f3]
    have hm := main "beta" (by simp)
      [⟨fullName (pushScope nm s) "mean_avg", momentsShape x.shape, .zeros, false⟩,
       ⟨fullName (pushScope nm s) "std_avg", momentsShape x.shape, .ones, false⟩]
      (by
        intro vd hv
        rcases List.mem_cons.1 hv with hv1 | hv1
        · exact ⟨"mean_avg", by decide, by rw [hv1]⟩
        · rw [List.mem_singleton] at hv1
          exact ⟨"std_avg", by decide, by rw [hv1]⟩)
    rw [hm]
    simp
  have hv3 : (getVariable "beta" (momentsShape x.shape) .zeros true
      (getVariable "std_avg" (momentsShape x.shape) .ones false
        (getVariable "mean_avg" (momentsShape x.shape) .zeros false
          (pushScope nm s)).2).2).2.vars = s.vars ++
      [⟨fullName (pushScope nm s) "mean_avg", momentsShape x.shape, .zeros, false⟩,
       ⟨fullName (pushScope nm s) "std_avg", momentsShape x.shape, .ones, false⟩,
       ⟨fullName (pushScope nm s) "beta", momentsShape x.shape, .zeros, true⟩] := by
    rw [getVariable_vars, if_neg c3, f3, hv2]
    simp
  have f4 : fullName (getVariable "beta" (momentsShape x.shape) .zeros true
      (getVariable "std_avg" (momentsShape x.shape) .ones false
        (getVariable "mean_avg" (momentsShape x.shape) .zeros false
          (pushScope nm s)).2).2).2 "gamma" = fullName (pushScope nm s) "gamma" := by
    rw [fullName, fullName, getVariable_scopes, getVariable_scopes, getVariable_scopes]
  have c4 : ¬(declared (getVariable "beta" (momentsShape x.shape) .zeros true
      (getVariable "std_avg" (momentsShape x.shape) .ones false
        (getVariable "mean_avg" (momentsShape x.shape) .zeros false
          (pushScope nm s)).2).2).2
      (fullName (getVariable "beta" (momentsShape x.shape) .zeros true
        (getVariable "std_avg" (momentsShape x.shape) .ones false
          (getVariable "mean_avg" (momentsShape x.shape) .zeros false
            (pushScope nm s)).2).2).2 "gamma") = true) := by
    simp only [declared, hv3, f4]
    have hm := main "gamma" (by simp)
      [⟨fullName (pushScope nm s) "mean_avg", momentsShape x.shape, .zeros, false⟩,
       ⟨fullName (pushScope nm s) "std_avg", momentsShape x.shape, .ones, false⟩,
       ⟨fullName (pushScope nm s) "beta", momentsShape x.shape, .zeros, true⟩]
      (by
        intro vd hv
        rcases List.mem_cons.1 hv with hv1 | hv1
        · exact ⟨"mean_avg", by decide, by rw [hv1]⟩
        rcases List.mem_cons.1 hv1 with hv2 | hv2
        · exact ⟨"std_avg", by decide, by rw [hv2]⟩
        · rw [List.mem_singleton] at hv2
          exact ⟨"beta", by decide, by rw [hv2]⟩)
    rw [hm]
    simp
  refine ⟨?_, by rw [batch_norm_fst]⟩
  unfold batch_norm
  dsimp only
  simp only [popScope]
  rw [getVariable_vars, if_neg c4, f4, hv3]
  simp

set_option maxHeartbeats 1600000 in
theorem setUpTail_fcW_mem (y : TVal) (wd bnd : ℚ) (xbs : TVal × BState)
    (hs : xbs.2.scopes = []) :
    ["fully-connected", "fc", "W"] ∈ (setUpTail y wd bnd xbs).2.regularizable := by
  have e1 : fullName (pushScope "fc" (pushScope "fully-connected"
      (popScope (batch_norm xbs.1 bnd "batch_norm"
        (pushScope "unit_last" xbs.2)).2))) "W" = ["fully-connected", "fc", "W"] := by
    simp [fullName, pushScope, popScope, batch_norm_scopes, hs]
  have h2 := fc_regularizable
    ⟨.reshape (.reduceMean
        (.relu (batch_norm xbs.1 bnd "batch_norm" (pushScope "unit_last" xbs.2)).1.e)
        [1, 2])
       ((meanPoolShape (batch_norm xbs.1 bnd "batch_norm"
          (pushScope "unit_last" xbs.2)).1.shape).getD 1 0),
     reshapeShape (meanPoolShape (batch_norm xbs.1 bnd "batch_norm"
        (pushScope "unit_last" xbs.2)).1.shape)
       ((meanPoolShape (batch_norm xbs.1 bnd "batch_norm"
          (pushScope "unit_last" xbs.2)).1.shape).getD 1 0)⟩
    100 "fc"
    (pushScope "fully-connected" (popScope (batch_norm xbs.1 bnd "batch_norm"
      (pushScope "unit_last" xbs.2)).2))
  rw [e1] at h2
  unfold setUpTail
  dsimp only
  exact (by
    rw [h2]
    split
    · assumption
    · simp :
    ["fully-connected", "fc", "W"] ∈
      (fc ⟨.reshape (.reduceMean
          (.relu (batch_norm xbs.1 bnd "batch_norm"
            (pushScope "unit_last" xbs.2)).1.e) [1, 2])
         ((meanPoolShape (batch_norm xbs.1 bnd "batch_norm"
            (pushScope "unit_last" xbs.2)).1.shape).getD 1 0),
       reshapeShape (meanPoolShape (batch_norm xbs.1 bnd "batch_norm"
          (pushScope "unit_last" xbs.2)).1.shape)
         ((meanPoolShape (batch_norm xbs.1 bnd "batch_norm"
            (pushScope "unit_last" xbs.2)).1.shape).getD 1 0)⟩
        100 "fc"
        (pushScope "fully-connected" (popScope (batch_norm xbs.1 bnd "batch_norm"
          (pushScope "unit_last" xbs.2)).2))).2.regularizable)

/-- C2: the graph built by set_up applies weight decay to the weights but never to
the biases: in the final state the REGULARIZATION_LOSSES collection consists of
exactly one term weight_decay * l2_loss(W) for each entry W of the (duplicate-free)
"regularizable_variables" collection; every entry of that collection is the W
kernel of a conv or fc layer, the fully-connected weight is in it, and the
fully-connected bias is not; moreover fc only ever adds its weight W (never its
bias b) to the collection, and conv always leaves its W a member. -/
theorem weight_decay_weights_not_biases (bs n k : Nat) (wd bnd : ℚ) :
    (set_up_init bs n k wd bnd).finalState.regLosses =
      (set_up_init bs n k wd bnd).finalState.regularizable.map
        (fun w => TFExpr.smul wd (.l2loss (.var w))) ∧
    (set_up_init bs n k wd bnd).finalState.regularizable.Nodup ∧
    (∀ p ∈ (set_up_init bs n k wd bnd).finalState.regularizable,
      p.getLast? = some "W") ∧
    ["fully-connected", "fc", "W"] ∈
      (set_up_init bs n k wd bnd).finalState.regularizable ∧
    ["fully-connected", "fc", "b"] ∉
      (set_up_init bs n k wd bnd).finalState.regularizable ∧
    (∀ (x : TVal) (od : Nat) (nm : String) (s : BState),
      (fc x od nm s).2.regularizable =
        if fullName (pushScope nm s) "W" ∈ s.regularizable then s.regularizable
        else s.regularizable ++ [fullName (pushScope nm s) "W"]) ∧
    (∀ (x : TVal) (fs oc st : Nat) (pad nm : String) (s : BState),
      fullName (pushScope nm s) "W" ∈ (conv x fs oc st pad nm s).2.regularizable) := by
  obtain ⟨hnd, hlw, hmap⟩ := setUp_final_RegInv bs n k wd bnd
  have hW : ["fully-connected", "fc", "W"] ∈
      (set_up_init bs n k wd bnd).finalState.regularizable := by
    unfold set_up_init setUpGraph DataLoading.load
    dsimp only
    exact setUpTail_fcW_mem _ wd bnd _ (setUp_blocks_triple bs n k bnd).1
  refine ⟨hmap, hnd, hlw, hW, ?_, ?_, ?_⟩
  · intro hc
    have h2 := hlw _ hc
    simp at h2
  · intro x od nm t
    exact fc_regularizable x od nm t
  · intro x fs oc st pad nm t
    rw [conv_regularizable]
    split
    · assumption
    · simp

theorem count_le_one_of_nodup {α : Type _} [BEq α] [LawfulBEq α] {l : List α}
    (h : l.Nodup) (a : α) : l.count a ≤ 1 := by
  induction l with
  | nil => simp
  | cons b t ih =>
    rcases List.nodup_cons.1 h with ⟨hb, ht⟩
    simp only [List.count_cons]
    split
    · rename_i hab
      have hab2 : b = a := eq_of_beq hab
      subst hab2
      have h0 : t.count b = 0 := List.count_eq_zero.mpr hb
      omega
    · have := ih ht
      omega

/-- C8: every weight variable created by conv or fc appears at most once in the
"regularizable_variables" collection because membership is checked before adding:
starting from a duplicate-free collection, conv and fc keep it duplicate-free, the
conv weight name occurs at most once afterwards, and running the same layer twice
leaves the collection unchanged the second time. -/
theorem regularizable_weight_at_most_once (x x2 : TVal) (fs oc st : Nat)
    (pad nm : String) (od : Nat) (s : BState) (h : s.regularizable.Nodup) :
    ((conv x fs oc st pad nm s).2.regularizable).Nodup ∧
    ((fc x od nm s).2.regularizable).Nodup ∧
    List.count (fullName (pushScope nm s) "W")
      ((conv x fs oc st pad nm s).2.regularizable) ≤ 1 ∧
    (conv x2 fs oc st pad nm (conv x fs oc st pad nm s).2).2.regularizable =
      (conv x fs oc st pad nm s).2.regularizable ∧
    (fc x2 od nm (fc x od nm s).2).2.regularizable =
      (fc x od nm s).2.regularizable := by
  have hcv : ((conv x fs oc st pad nm s).2.regularizable).Nodup := by
    rw [conv_regularizable]
    split
    · exact h
    · exact concat_nodup h (by assumption)
  have hfc : ((fc x od nm s).2.regularizable).Nodup := by
    rw [fc_regularizable]
    split
    · exact h
    · exact concat_nodup h (by assumption)
  have hmemc : fullName (pushScope nm s) "W" ∈
      (conv x fs oc st pad nm s).2.regularizable := by
    rw [conv_regularizable]
    split
    · assumption
    · simp
  have hmemf : fullName (pushScope nm s) "W" ∈
      (fc x od nm s).2.regularizable := by
    rw [fc_regularizable]
    split
    · assumption
    · simp
  have hfn : ∀ t : BState, t.scopes = s.scopes →
      fullName (pushScope nm t) "W" = fullName (pushScope nm s) "W" := by
    intro t ht
    simp [fullName, pushScope, ht]
  refine ⟨hcv, hfc, count_le_one_of_nodup hcv _, ?_, ?_⟩
  · rw [conv_regularizable, hfn _ (conv_scopes x fs oc st pad nm s),
      if_pos hmemc]
  · rw [fc_regularizable, hfn _ (fc_scopes x od nm s), if_pos hmemf]

/-- C9: for every width k >= 1 and block index i in xrange(1, 4), the max-pool
shortcut branch of the first residual unit is unreachable: whenever the adjacent
filter counts agree the corresponding stride is 1, and the shortcut built by the
source is either tf.identity of its input (equal filters, stride 1) or a 1x1
convolution (unequal filters), never a max-pool; in particular it introduces no
max-pool node. -/
theorem shortcut_never_max_pool (k i : Nat) (x : TVal) (s : BState)
    (hk : 1 ≤ k) (hi : i ∈ xrange 1 4) :
    ((filters k).getD (i - 1) 0 = (filters k).getD i 0 →
      strides.getD (i - 1) 0 = 1) ∧
    ((shortcutOf ((filters k).getD (i - 1) 0) ((filters k).getD i 0)
        (strides.getD (i - 1) 0) x s).1.e = .identityE x.e ∨
     (shortcutOf ((filters k).getD (i - 1) 0) ((filters k).getD i 0)
        (strides.getD (i - 1) 0) x s).1.e =
       .conv2d x.e (.var (fullName (pushScope "shortcut" s) "W"))
         (strides.getD (i - 1) 0) "SAME") ∧
    hasMaxPool ((shortcutOf ((filters k).getD (i - 1) 0) ((filters k).getD i 0)
        (strides.getD (i - 1) 0) x s).1.e) = hasMaxPool x.e := by
  have hx : xrange 1 4 = [1, 2, 3] := rfl
  rw [hx] at hi
  have hi3 : i = 1 ∨ i = 2 ∨ i = 3 := by simpa using hi
  have main : ∀ fP fC st2 : Nat,
      (fP = fC → st2 = 1) →
      ((shortcutOf fP fC st2 x s).1.e = .identityE x.e ∨
       (shortcutOf fP fC st2 x s).1.e =
         .conv2d x.e (.var (fullName (pushScope "shortcut" s) "W")) st2 "SAME") ∧
      hasMaxPool ((shortcutOf fP fC st2 x s).1.e) = hasMaxPool x.e := by
    intro fP fC st2 himp
    unfold shortcutOf
    split
    · rename_i heq
      rw [beq_iff_eq] at heq
      rw [if_pos (by rw [himp heq]; rfl)]
      exact ⟨Or.inl rfl, by simp [hasMaxPool]⟩
    · rw [conv_fst]
      exact ⟨Or.inr rfl, by simp [hasMaxPool]⟩
  rcases hi3 with rfl | rfl | rfl
  · have himp : (filters k).getD 0 0 = (filters k).getD 1 0 →
        strides.getD 0 0 = 1 := fun _ => rfl
    exact ⟨himp, main _ _ _ himp⟩
  · have himp : (filters k).getD 1 0 = (filters k).getD 2 0 →
        strides.getD 1 0 = 1 := by
      intro heq
      simp [filters] at heq
      omega
    exact ⟨himp, main _ _ _ himp⟩
  · have himp : (filters k).getD 2 0 = (filters k).getD 3 0 →
        strides.getD 2 0 = 1 := by
      intro heq
      simp [filters] at heq
      omega
    exact ⟨himp, main _ _ _ himp⟩

/-- C4: for every num_residual_units n >= 1 and width k, the graph consists of an
initial 3x3 convolution to 16 channels followed by exactly three residual blocks
(the loop runs over xrange(1, 4) = [1, 2, 3]) with output channel counts
16k, 32k, 64k and first-unit strides 1, 2, 2 (filters = [16, 16k, 32k, 64k],
strides = [1, 2, 2], and block i halves the spatial size by strides[i-1] in its
first unit and ends with channel count filters[i]); each block consists of the
first unit plus one further unit per element of xrange(1, n) — n units in all —
and every residual unit ends by adding its shortcut to the residual branch. -/
theorem wrn_residual_architecture (bs n k i j : Nat) (wd bnd : ℚ)
    (xs : TVal × BState) (hn : 1 ≤ n) :
    xrange 1 4 = [1, 2, 3] ∧
    filters k = [16, 16 * k, 32 * k, 64 * k] ∧
    strides = [1, 2, 2] ∧
    1 + (xrange 1 n).length = n ∧
    runBlock bnd k n i xs =
      (xrange 1 n).foldl (fun acc j2 => furtherUnit bnd k i j2 acc)
        (firstUnit bnd k i xs) ∧
    (∃ r sc, (firstUnit bnd k i xs).1.e = .add r sc) ∧
    (∃ r, (furtherUnit bnd k i j xs).1.e = .add r xs.1.e) ∧
    (runBlock bnd k n i xs).1.shape.getD 3 0 = (filters k).getD i 0 ∧
    (firstUnit bnd k i xs).1.shape.getD 1 0 =
      cdiv (xs.1.shape.getD 1 0) (strides.getD (i - 1) 0) ∧
    (conv (⟨.X, [bs, 32, 32, 3]⟩ : TVal) 3 16 1 "SAME" "conv_0" initialState).1.e =
      .conv2d .X (.var ["conv_0", "W"]) 1 "SAME" ∧
    (⟨["conv_0", "W"], [3, 3, 3, 16],
      .randomNormal (1 / ((3 * 3 * 16 : Nat) : ℚ)), true⟩ : VarDecl) ∈
      (set_up_init bs n k wd bnd).finalState.vars := by
  refine ⟨rfl, rfl, rfl, ?_, rfl, ?_, ?_, ?_, ?_, rfl, ?_⟩
  · have hl : (xrange 1 n).length = n - 1 := by
      rw [xrange, List.length_range']
    omega
  · exact ⟨_, _, rfl⟩
  · exact ⟨_, rfl⟩
  · exact (runBlock_shape bnd k n i xs (xs.1.shape.getD 0 0) rfl).2
  · rw [firstUnit_shape]
    have : ∀ (sh : List Nat) (st2 oc : Nat),
        (convShape (convShape sh st2 oc) 1 oc).getD 1 0 = cdiv (sh.getD 1 0) st2 := by
      intro sh st2 oc
      simp [convShape, cdiv]
    exact this _ _ _
  · have hmem : (⟨["conv_0", "W"], [3, 3, 3, 16],
        .randomNormal (1 / ((3 * 3 * 16 : Nat) : ℚ)), true⟩ : VarDecl) ∈
        (conv (⟨.X, [bs, 32, 32, 3]⟩ : TVal) 3 16 1 "SAME" "conv_0"
          initialState).2.vars := by
      have e : (conv (⟨.X, [bs, 32, 32, 3]⟩ : TVal) 3 16 1 "SAME" "conv_0"
          initialState).2.vars = [⟨["conv_0", "W"], [3, 3, 3, 16],
          .randomNormal (1 / ((3 * 3 * 16 : Nat) : ℚ)), true⟩] := rfl
      rw [e]
      simp
    have hmem2 := foldl_preserve
      (fun (acc : TVal × BState) => (⟨["conv_0", "W"], [3, 3, 3, 16],
        .randomNormal (1 / ((3 * 3 * 16 : Nat) : ℚ)), true⟩ : VarDecl) ∈ acc.2.vars)
      (fun acc i2 => runBlock bnd k n i2 acc)
      (fun acc i2 hm => runBlock_vars_mono bnd k n i2 acc _ hm) (xrange 1 4) _ hmem
    unfold set_up_init setUpGraph DataLoading.load
    dsimp only
    exact setUpTail_vars_mono _ wd bnd _ _ hmem2

/-- C6: the classification head applies, in order, a mean-pool over the two
spatial axes (tf.reduce_mean with axes [1, 2]), a reshape to two dimensions, a
fully-connected layer (matrix multiply plus bias) with exactly 100 output
dimensions (its weight has shape [64k, 100] and its bias shape [100]), and a
softmax cross-entropy between those logits and the labels; the losses tensor has
shape [batch_size], one entry per data point. -/
theorem classification_head (bs n k : Nat) (wd bnd : ℚ) (hk : 1 ≤ k) :
    (∃ c, (set_up_init bs n k wd bnd).losses.e = .softmaxCEv2 .yLabels
      (.add (.matmul (.reshape (.reduceMean (.relu c) [1, 2]) (64 * k))
        (.var ["fully-connected", "fc", "W"]))
        (.var ["fully-connected", "fc", "b"]))) ∧
    (set_up_init bs n k wd bnd).losses.shape = [bs] ∧
    (⟨["fully-connected", "fc", "W"], [64 * k, 100],
      .randomNormal (1 / ((100 : Nat) : ℚ)), true⟩ : VarDecl) ∈
      (set_up_init bs n k wd bnd).finalState.vars ∧
    (⟨["fully-connected", "fc", "b"], [100], .constant 0, true⟩ : VarDecl) ∈
      (set_up_init bs n k wd bnd).finalState.vars := by
  have hbt := setUp_blocks_triple bs n k bnd
  have hbs := setUp_blocks_shape bs n k bnd
  have hdecls := setUpTail_fc_decls ⟨.yLabels, [bs, 100]⟩ wd bnd
    ((xrange 1 4).foldl (fun acc i => runBlock bnd k n i acc)
      (conv ⟨.X, [bs, 32, 32, 3]⟩ 3 16 1 "SAME" "conv_0" initialState))
    (64 * k) hbt.1 hbt.2.2 hbs.2
  have he := setUpTail_losses_e ⟨.yLabels, [bs, 100]⟩ wd bnd
    ((xrange 1 4).foldl (fun acc i => runBlock bnd k n i acc)
      (conv ⟨.X, [bs, 32, 32, 3]⟩ 3 16 1 "SAME" "conv_0" initialState)) hbt.1
  rw [hbs.2] at he
  have hsh := setUpTail_losses_shape ⟨.yLabels, [bs, 100]⟩ wd bnd
    ((xrange 1 4).foldl (fun acc i => runBlock bnd k n i acc)
      (conv ⟨.X, [bs, 32, 32, 3]⟩ 3 16 1 "SAME" "conv_0" initialState))
    bs (64 * k) hbs.1 hbs.2 (by omega)
  unfold set_up_init setUpGraph DataLoading.load
  dsimp only
  exact ⟨⟨_, he⟩, hsh, hdecls.1, hdecls.2⟩

/-- Concrete instance of batch_norm_variable_initialization: the hypotheses hold
for the empty graph and the four variables are created as stated. -/
theorem batch_norm_variable_initialization_witness :
    (∀ vd ∈ initialState.vars, vd.name.getLast? ∉
      ([some "mean_avg", some "std_avg", some "beta", some "gamma"] :
        List (Option String))) ∧
    ((batch_norm ⟨.X, [2, 4, 4, 3]⟩ (9 / 10) "batch_norm" initialState).2.vars =
        initialState.vars ++
      [⟨["batch_norm", "mean_avg"], [3], .zeros, false⟩,
       ⟨["batch_norm", "std_avg"], [3], .ones, false⟩,
       ⟨["batch_norm", "beta"], [3], .zeros, true⟩,
       ⟨["batch_norm", "gamma"], [3], .ones, true⟩] ∧
     (batch_norm ⟨.X, [2, 4, 4, 3]⟩ (9 / 10) "batch_norm" initialState).1.e =
       .batchNormalization .X
         (.condEqPhase "train" (.momentsMean .X [0, 1, 2])
           (.var ["batch_norm", "mean_avg"]))
         (.condEqPhase "train" (.momentsVar .X [0, 1, 2])
           (.var ["batch_norm", "std_avg"]))
         (.var ["batch_norm", "beta"]) (.var ["batch_norm", "gamma"])
         (1 / 100000)) :=
  ⟨by simp [initialState],
   batch_norm_variable_initialization ⟨.X, [2, 4, 4, 3]⟩ (9 / 10) "batch_norm"
     initialState (by simp [initialState])⟩

/-- Concrete instance of regularizable_weight_at_most_once on the empty graph. -/
theorem regularizable_weight_at_most_once_witness :
    initialState.regularizable.Nodup ∧
    (((conv ⟨.X, [1, 8, 8, 4]⟩ 1 1 1 "SAME" "conv" initialState).2.regularizable).Nodup ∧
     ((fc ⟨.X, [1, 10]⟩ 10 "conv" initialState).2.regularizable).Nodup ∧
     List.count (fullName (pushScope "conv" initialState) "W")
       ((conv ⟨.X, [1, 8, 8, 4]⟩ 1 1 1 "SAME" "conv" initialState).2.regularizable) ≤ 1 ∧
     (conv ⟨.yLabels, [1, 8, 8, 4]⟩ 1 1 1 "SAME" "conv"
        (conv ⟨.X, [1, 8, 8, 4]⟩ 1 1 1 "SAME" "conv" initialState).2).2.regularizable =
       (conv ⟨.X, [1, 8, 8, 4]⟩ 1 1 1 "SAME" "conv" initialState).2.regularizable ∧
     (fc ⟨.yLabels, [1, 10]⟩ 10 "conv"
        (fc ⟨.X, [1, 10]⟩ 10 "conv" initialState).2).2.regularizable =
       (fc ⟨.X, [1, 10]⟩ 10 "conv" initialState).2.regularizable) :=
  ⟨by simp [initialState],
   regularizable_weight_at_most_once ⟨.X, [1, 8, 8, 4]⟩ ⟨.yLabels, [1, 8, 8, 4]⟩
     1 1 1 "SAME" "conv" 10 initialState (by simp [initialState])⟩

/-- Concrete instance of shortcut_never_max_pool at width k = 1 and block i = 2. -/
theorem shortcut_never_max_pool_witness :
    1 ≤ 1 ∧ 2 ∈ xrange 1 4 ∧
    (((filters 1).getD 1 0 = (filters 1).getD 2 0 → strides.getD 1 0 = 1) ∧
     ((shortcutOf ((filters 1).getD 1 0) ((filters 1).getD 2 0) (strides.getD 1 0)
         ⟨.X, [1, 8, 8, 16]⟩ initialState).1.e = .identityE TFExpr.X ∨
      (shortcutOf ((filters 1).getD 1 0) ((filters 1).getD 2 0) (strides.getD 1 0)
         ⟨.X, [1, 8, 8, 16]⟩ initialState).1.e =
        .conv2d .X (.var (fullName (pushScope "shortcut" initialState) "W"))
          (strides.getD 1 0) "SAME") ∧
     hasMaxPool ((shortcutOf ((filters 1).getD 1 0) ((filters 1).getD 2 0)
         (strides.getD 1 0) ⟨.X, [1, 8, 8, 16]⟩ initialState).1.e) =
       hasMaxPool TFExpr.X) :=
  ⟨by decide, by decide,
   shortcut_never_max_pool 1 2 ⟨.X, [1, 8, 8, 16]⟩ initialState (by decide) (by decide)⟩

/-- Concrete instance of wrn_residual_architecture at n = k = 1. -/
theorem wrn_residual_architecture_witness :
    1 ≤ 1 ∧
    (xrange 1 4 = [1, 2, 3] ∧
     filters 1 = [16, 16 * 1, 32 * 1, 64 * 1] ∧
     strides = [1, 2, 2] ∧
     1 + (xrange 1 1).length = 1 ∧
     runBlock 0 1 1 1 (⟨.X, [1, 32, 32, 16]⟩, initialState) =
       (xrange 1 1).foldl (fun acc j2 => furtherUnit 0 1 1 j2 acc)
         (firstUnit 0 1 1 (⟨.X, [1, 32, 32, 16]⟩, initialState)) ∧
     (∃ r sc, (firstUnit 0 1 1 (⟨.X, [1, 32, 32, 16]⟩, initialState)).1.e =
       .add r sc) ∧
     (∃ r, (furtherUnit 0 1 1 1 (⟨.X, [1, 32, 32, 16]⟩, initialState)).1.e =
       .add r (⟨.X, [1, 32, 32, 16]⟩ : TVal).e) ∧
     (runBlock 0 1 1 1 (⟨.X, [1, 32, 32, 16]⟩, initialState)).1.shape.getD 3 0 =
       (filters 1).getD 1 0 ∧
     (firstUnit 0 1 1 (⟨.X, [1, 32, 32, 16]⟩, initialState)).1.shape.getD 1 0 =
       cdiv ((⟨.X, [1, 32, 32, 16]⟩ : TVal).shape.getD 1 0) (strides.getD 0 0) ∧
     (conv (⟨.X, [1, 32, 32, 3]⟩ : TVal) 3 16 1 "SAME" "conv_0" initialState).1.e =
       .conv2d .X (.var ["conv_0", "W"]) 1 "SAME" ∧
     (⟨["conv_0", "W"], [3, 3, 3, 16],
       .randomNormal (1 / ((3 * 3 * 16 : Nat) : ℚ)), true⟩ : VarDecl) ∈
       (set_up_init 1 1 1 0 0).finalState.vars) :=
  ⟨by decide,
   wrn_residual_architecture 1 1 1 1 1 0 0 (⟨.X, [1, 32, 32, 16]⟩, initialState)
     (by decide)⟩

/-- Concrete instance of classification_head at batch size 2 and n = k = 1. -/
theorem classification_head_witness :
    1 ≤ 1 ∧
    ((∃ c, (set_up_init 2 1 1 0 0).losses.e = .softmaxCEv2 .yLabels
       (.add (.matmul (.reshape (.reduceMean (.relu c) [1, 2]) (64 * 1))
         (.var ["fully-connected", "fc", "W"]))
         (.var ["fully-connected", "fc", "b"]))) ∧
     (set_up_init 2 1 1 0 0).losses.shape = [2] ∧
     (⟨["fully-connected", "fc", "W"], [64 * 1, 100],
       .randomNormal (1 / ((100 : Nat) : ℚ)), true⟩ : VarDecl) ∈
       (set_up_init 2 1 1 0 0).finalState.vars ∧
     (⟨["fully-connected", "fc", "b"], [100], .constant 0, true⟩ : VarDecl) ∈
       (set_up_init 2 1 1 0 0).finalState.vars) :=
  ⟨by decide, classification_head 2 1 1 0 0 (by decide)⟩

end DeepOBS
